import Mathlib

/-!
Verification development for the chippy CHIP-8 / SuperChip emulator.

This file gives a shallow embedding of the emulator's core
(src/emulator/instruction.rs, comp_mode.rs, keys.rs, screen.rs,
machine.rs) into Lean, and proves or refutes the specification claims
about it.  Machine integers are modelled as Nat with explicit reduction
modulo 2^8 / 2^16 / 2^128 wherever the Rust code wraps; Rust panics are
modelled as errors of an Except monad.
-/

namespace Chippy

/-! ## comp_mode.rs : the six quirk axes -/

/-- ShiftMode from comp_mode.rs: Original shifts Vy into Vx, SuperChip
shifts Vx in place. -/
inductive ShiftMode
  | Original
  | SuperChip
deriving DecidableEq, Repr

/-- LoadStoreMode from comp_mode.rs. -/
inductive LoadStoreMode
  | Original
  | SuperChip
deriving DecidableEq, Repr

/-- AddressSpace from comp_mode.rs. -/
inductive AddressSpace
  | Original
  | XOChip
deriving DecidableEq, Repr

/-- AllowedInstructions from comp_mode.rs: the ordinal instruction tier. -/
inductive AllowedInstructions
  | Original
  | SuperChip
  | XOChip
deriving DecidableEq, Repr

/-- The `as u8` ordinal of the AllowedInstructions tier
(Original = 0, SuperChip = 1, XOChip = 2). -/
def AllowedInstructions.toNum : AllowedInstructions → Nat
  | .Original => 0
  | .SuperChip => 1
  | .XOChip => 2

/-- RelativeJumpMode from comp_mode.rs. -/
inductive RelativeJumpMode
  | Original
  | SuperChip
deriving DecidableEq, Repr

/-- CollisionEnumeration from comp_mode.rs: Original sets VF to 1 on any
collision else 0; SuperChip sets VF to the collision count. -/
inductive CollisionEnumeration
  | Original
  | SuperChip
deriving DecidableEq, Repr

/-- CompatibilityMode from comp_mode.rs: the immutable bundle of the six
quirk axes. -/
structure CompatibilityMode where
  shift : ShiftMode
  load_store : LoadStoreMode
  address_space : AddressSpace
  allowed_instructions : AllowedInstructions
  jump_mode : RelativeJumpMode
  collisions : CollisionEnumeration
deriving DecidableEq, Repr

/-! ## instruction.rs : operands, instruction decoding -/

/-- Register operand: `pub struct Register(pub u8)`.  The decoder only
ever produces values below 16 (it masks with 0x0F). -/
structure Register where
  val : Nat
deriving DecidableEq, Repr

/-- Constant operand: `pub struct Constant(pub u8)`. -/
structure Constant where
  val : Nat
deriving DecidableEq, Repr

/-- Address operand: `pub struct Address(pub u16)`; the decoder masks it
to 12 bits. -/
structure Address where
  val : Nat
deriving DecidableEq, Repr

/-- The Instruction enum from instruction.rs. -/
inductive Instruction
  | ClearScreen
  | Return
  | Jump (nnn : Address)
  | Call (nnn : Address)
  | SkipEqualConstant (x : Register) (kk : Constant)
  | SkipNotEqualConstant (x : Register) (kk : Constant)
  | SkipEqual (x : Register) (y : Register)
  | Set (x : Register) (kk : Constant)
  | SetSum (x : Register) (kk : Constant)
  | Mov (x : Register) (y : Register)
  | Or (x : Register) (y : Register)
  | And (x : Register) (y : Register)
  | Xor (x : Register) (y : Register)
  | Add (x : Register) (y : Register)
  | Sub (x : Register) (y : Register)
  | ShiftRight (x : Register) (y : Register)
  | RevSub (x : Register) (y : Register)
  | ShiftLeft (x : Register) (y : Register)
  | SkipNotEqual (x : Register) (y : Register)
  | LoadI (nnn : Address)
  | JumpRelative (nnn : Address)
  | Random (x : Register) (kk : Constant)
  | Draw (x : Register) (y : Register) (n : Constant)
  | SkipPressed (x : Register)
  | SkipNotPressed (x : Register)
  | LoadDelay (x : Register)
  | WaitForKey (x : Register)
  | StoreDelay (x : Register)
  | StoreSound (x : Register)
  | AddI (x : Register)
  | LoadSprite (x : Register)
  | StoreBCD (x : Register)
  | Store (x : Register)
  | Load (x : Register)
  | ScrollDown (n : Constant)
  | ScrollRight
  | ScrollLeft
  | Exit
  | LoRes
  | HiRes
  | LoadLargeSprite (x : Register)
  | StoreUserFlags (x : Register)
  | LoadUserFlags (x : Register)
deriving DecidableEq, Repr

/-- extract_x from instruction.rs: `bytes[0] & 0x0F`, written as the
equal residue modulo 16. -/
def extract_x (bytes : List Nat) : Register :=
  ⟨bytes.getD 0 0 % 16⟩

/-- extract_y from instruction.rs: `(bytes[1] & 0xF0) >> 4`, written as
the equal quotient-residue arithmetic. -/
def extract_y (bytes : List Nat) : Register :=
  ⟨bytes.getD 1 0 / 16 % 16⟩

/-- extract_n from instruction.rs: `bytes[1] & 0x0F`. -/
def extract_n (bytes : List Nat) : Constant :=
  ⟨bytes.getD 1 0 % 16⟩

/-- extract_kk from instruction.rs: `bytes[1]`. -/
def extract_kk (bytes : List Nat) : Constant :=
  ⟨bytes.getD 1 0⟩

/-- extract_nnn from instruction.rs: low nibble of byte 0 shifted into
the high position, joined with all of byte 1 (for u8 bytes the
shift-or is this product-sum). -/
def extract_nnn (bytes : List Nat) : Address :=
  ⟨bytes.getD 0 0 % 16 * 256 + bytes.getD 1 0⟩

/-- extract_nibbles from instruction.rs: the four nibbles of the
2-byte word, highest first, as quotient-residue arithmetic on the two
u8 bytes. -/
def extract_nibbles (bytes : List Nat) : Nat × Nat × Nat × Nat :=
  (bytes.getD 0 0 / 16 % 16,
   bytes.getD 0 0 % 16,
   bytes.getD 1 0 / 16 % 16,
   bytes.getD 1 0 % 16)

/-- The row table of Instruction::decode, lambda-lifted: the Rust
`match` on the four nibbles tests its rows in order and takes the first
match, embedded here as the equivalent ordered if-chain, one test per
source row, with wildcard positions simply untested; any word matching
no row decodes to none.  The operand values extracted from the word are
passed in unchanged. -/
def Instruction.decodeRows (n0 n1 n2 n3 : Nat) (x y : Register) (n kk : Constant)
    (nnn : Address) : Option Instruction :=
  if n0 = 0x0 ∧ n1 = 0x0 ∧ n2 = 0xC then some (.ScrollDown n) else
  if n0 = 0x0 ∧ n1 = 0x0 ∧ n2 = 0xE ∧ n3 = 0x0 then some .ClearScreen else
  if n0 = 0x0 ∧ n1 = 0x0 ∧ n2 = 0xE ∧ n3 = 0xE then some .Return else
  if n0 = 0x0 ∧ n1 = 0x0 ∧ n2 = 0xF ∧ n3 = 0xB then some .ScrollRight else
  if n0 = 0x0 ∧ n1 = 0x0 ∧ n2 = 0xF ∧ n3 = 0xC then some .ScrollLeft else
  if n0 = 0x0 ∧ n1 = 0x0 ∧ n2 = 0xF ∧ n3 = 0xD then some .Exit else
  if n0 = 0x0 ∧ n1 = 0x0 ∧ n2 = 0xF ∧ n3 = 0xE then some .LoRes else
  if n0 = 0x0 ∧ n1 = 0x0 ∧ n2 = 0xF ∧ n3 = 0xF then some .HiRes else
  if n0 = 0x1 then some (.Jump nnn) else
  if n0 = 0x2 then some (.Call nnn) else
  if n0 = 0x3 then some (.SkipEqualConstant x kk) else
  if n0 = 0x4 then some (.SkipNotEqualConstant x kk) else
  if n0 = 0x5 ∧ n3 = 0x0 then some (.SkipEqual x y) else
  if n0 = 0x6 then some (.Set x kk) else
  if n0 = 0x7 then some (.SetSum x kk) else
  if n0 = 0x8 ∧ n3 = 0x0 then some (.Mov x y) else
  if n0 = 0x8 ∧ n3 = 0x1 then some (.Or x y) else
  if n0 = 0x8 ∧ n3 = 0x2 then some (.And x y) else
  if n0 = 0x8 ∧ n3 = 0x3 then some (.Xor x y) else
  if n0 = 0x8 ∧ n3 = 0x4 then some (.Add x y) else
  if n0 = 0x8 ∧ n3 = 0x5 then some (.Sub x y) else
  if n0 = 0x8 ∧ n3 = 0x6 then some (.ShiftRight x y) else
  if n0 = 0x8 ∧ n3 = 0x7 then some (.RevSub x y) else
  if n0 = 0x8 ∧ n3 = 0xE then some (.ShiftLeft x y) else
  if n0 = 0x9 ∧ n3 = 0x0 then some (.SkipNotEqual x y) else
  if n0 = 0xA then some (.LoadI nnn) else
  if n0 = 0xB then some (.JumpRelative nnn) else
  if n0 = 0xC then some (.Random x kk) else
  if n0 = 0xD then some (.Draw x y n) else
  if n0 = 0xE ∧ n2 = 0x9 ∧ n3 = 0xE then some (.SkipPressed x) else
  if n0 = 0xE ∧ n2 = 0xA ∧ n3 = 0x1 then some (.SkipNotPressed x) else
  if n0 = 0xF ∧ n2 = 0x0 ∧ n3 = 0x7 then some (.LoadDelay x) else
  if n0 = 0xF ∧ n2 = 0x0 ∧ n3 = 0xA then some (.WaitForKey x) else
  if n0 = 0xF ∧ n2 = 0x1 ∧ n3 = 0x5 then some (.StoreDelay x) else
  if n0 = 0xF ∧ n2 = 0x1 ∧ n3 = 0x8 then some (.StoreSound x) else
  if n0 = 0xF ∧ n2 = 0x1 ∧ n3 = 0xE then some (.AddI x) else
  if n0 = 0xF ∧ n2 = 0x2 ∧ n3 = 0x9 then some (.LoadSprite x) else
  if n0 = 0xF ∧ n2 = 0x3 ∧ n3 = 0x0 then some (.LoadLargeSprite x) else
  if n0 = 0xF ∧ n2 = 0x3 ∧ n3 = 0x3 then some (.StoreBCD x) else
  if n0 = 0xF ∧ n2 = 0x5 ∧ n3 = 0x5 then some (.Store x) else
  if n0 = 0xF ∧ n2 = 0x6 ∧ n3 = 0x5 then some (.Load x) else
  if n0 = 0xF ∧ n2 = 0x7 ∧ n3 = 0x5 then some (.StoreUserFlags x) else
  if n0 = 0xF ∧ n2 = 0x8 ∧ n3 = 0x5 then some (.LoadUserFlags x) else
  none

/-- Instruction::decode from instruction.rs: extract the operand fields
and the four nibbles of the first two bytes and look the nibbles up in
the ordered opcode table. -/
def Instruction.decode (bytes : List Nat) : Option Instruction :=
  let x := extract_x bytes
  let y := extract_y bytes
  let n := extract_n bytes
  let kk := extract_kk bytes
  let nnn := extract_nnn bytes
  let nib := extract_nibbles bytes
  Instruction.decodeRows nib.1 nib.2.1 nib.2.2.1 nib.2.2.2 x y n kk nnn

/-- The opcode table of Instruction::decode as a nibble-pattern
predicate: one disjunct per source row, in source order, wildcard
positions unconstrained. -/
def opcodeTableMatches (n0 n1 n2 n3 : Nat) : Prop :=
  (n0 = 0x0 ∧ n1 = 0x0 ∧ n2 = 0xC) ∨
  (n0 = 0x0 ∧ n1 = 0x0 ∧ n2 = 0xE ∧ n3 = 0x0) ∨
  (n0 = 0x0 ∧ n1 = 0x0 ∧ n2 = 0xE ∧ n3 = 0xE) ∨
  (n0 = 0x0 ∧ n1 = 0x0 ∧ n2 = 0xF ∧ n3 = 0xB) ∨
  (n0 = 0x0 ∧ n1 = 0x0 ∧ n2 = 0xF ∧ n3 = 0xC) ∨
  (n0 = 0x0 ∧ n1 = 0x0 ∧ n2 = 0xF ∧ n3 = 0xD) ∨
  (n0 = 0x0 ∧ n1 = 0x0 ∧ n2 = 0xF ∧ n3 = 0xE) ∨
  (n0 = 0x0 ∧ n1 = 0x0 ∧ n2 = 0xF ∧ n3 = 0xF) ∨
  (n0 = 0x1) ∨
  (n0 = 0x2) ∨
  (n0 = 0x3) ∨
  (n0 = 0x4) ∨
  (n0 = 0x5 ∧ n3 = 0x0) ∨
  (n0 = 0x6) ∨
  (n0 = 0x7) ∨
  (n0 = 0x8 ∧ n3 = 0x0) ∨
  (n0 = 0x8 ∧ n3 = 0x1) ∨
  (n0 = 0x8 ∧ n3 = 0x2) ∨
  (n0 = 0x8 ∧ n3 = 0x3) ∨
  (n0 = 0x8 ∧ n3 = 0x4) ∨
  (n0 = 0x8 ∧ n3 = 0x5) ∨
  (n0 = 0x8 ∧ n3 = 0x6) ∨
  (n0 = 0x8 ∧ n3 = 0x7) ∨
  (n0 = 0x8 ∧ n3 = 0xE) ∨
  (n0 = 0x9 ∧ n3 = 0x0) ∨
  (n0 = 0xA) ∨
  (n0 = 0xB) ∨
  (n0 = 0xC) ∨
  (n0 = 0xD) ∨
  (n0 = 0xE ∧ n2 = 0x9 ∧ n3 = 0xE) ∨
  (n0 = 0xE ∧ n2 = 0xA ∧ n3 = 0x1) ∨
  (n0 = 0xF ∧ n2 = 0x0 ∧ n3 = 0x7) ∨
  (n0 = 0xF ∧ n2 = 0x0 ∧ n3 = 0xA) ∨
  (n0 = 0xF ∧ n2 = 0x1 ∧ n3 = 0x5) ∨
  (n0 = 0xF ∧ n2 = 0x1 ∧ n3 = 0x8) ∨
  (n0 = 0xF ∧ n2 = 0x1 ∧ n3 = 0xE) ∨
  (n0 = 0xF ∧ n2 = 0x2 ∧ n3 = 0x9) ∨
  (n0 = 0xF ∧ n2 = 0x3 ∧ n3 = 0x0) ∨
  (n0 = 0xF ∧ n2 = 0x3 ∧ n3 = 0x3) ∨
  (n0 = 0xF ∧ n2 = 0x5 ∧ n3 = 0x5) ∨
  (n0 = 0xF ∧ n2 = 0x6 ∧ n3 = 0x5) ∨
  (n0 = 0xF ∧ n2 = 0x7 ∧ n3 = 0x5) ∨
  (n0 = 0xF ∧ n2 = 0x8 ∧ n3 = 0x5)

/-- Instruction::needed_comp from instruction.rs: minimum tier an
instruction requires. -/
def Instruction.needed_comp : Instruction → AllowedInstructions
  | .ClearScreen => .Original
  | .Return => .Original
  | .Jump _ => .Original
  | .Call _ => .Original
  | .SkipEqualConstant _ _ => .Original
  | .SkipNotEqualConstant _ _ => .Original
  | .SkipEqual _ _ => .Original
  | .Set _ _ => .Original
  | .SetSum _ _ => .Original
  | .Mov _ _ => .Original
  | .Or _ _ => .Original
  | .And _ _ => .Original
  | .Xor _ _ => .Original
  | .Add _ _ => .Original
  | .Sub _ _ => .Original
  | .ShiftRight _ _ => .Original
  | .RevSub _ _ => .Original
  | .ShiftLeft _ _ => .Original
  | .SkipNotEqual _ _ => .Original
  | .LoadI _ => .Original
  | .JumpRelative _ => .Original
  | .Random _ _ => .Original
  | .Draw _ _ _ => .Original
  | .SkipPressed _ => .Original
  | .SkipNotPressed _ => .Original
  | .LoadDelay _ => .Original
  | .WaitForKey _ => .Original
  | .StoreDelay _ => .Original
  | .StoreSound _ => .Original
  | .AddI _ => .Original
  | .LoadSprite _ => .Original
  | .StoreBCD _ => .Original
  | .Store _ => .Original
  | .Load _ => .Original
  | .ScrollDown _ => .Original
  | .ScrollRight => .SuperChip
  | .ScrollLeft => .SuperChip
  | .Exit => .SuperChip
  | .LoRes => .SuperChip
  | .HiRes => .SuperChip
  | .LoadLargeSprite _ => .SuperChip
  | .StoreUserFlags _ => .SuperChip
  | .LoadUserFlags _ => .SuperChip

/-- Instruction::length from instruction.rs: always 2 in this tier set. -/
def Instruction.length (_ : Instruction) : Nat := 2

/-- AllowedInstructions::is_legal from comp_mode.rs: the configured
tier's ordinal must be at least the instruction's required ordinal. -/
def AllowedInstructions.is_legal (a : AllowedInstructions) (i : Instruction) : Bool :=
  Nat.ble i.needed_comp.toNum a.toNum

/-! ## keys.rs : the host-owned key table -/

/-- Keys from keys.rs: a 16-entry boolean table indexed by key code
(modelled as a total function; the emulator only reads codes below 16,
checked by an assertion at the access sites). -/
structure Keys where
  key_values : Nat → Bool

/-- Keys::is_pressed (the table lookup; the `assert!(k < 16)` guard is
modelled at the emulator call sites that could receive a large code). -/
def Keys.is_pressed (k : Keys) (n : Nat) : Bool :=
  k.key_values n

/-! ## screen.rs : the dual bit-plane display engine -/

/-- BitPlane from screen.rs: 64 rows of 128 bits; each row is a u128,
modelled as a Nat below 2^128, column 0 at the most significant bit. -/
structure BitPlane where
  rows : Nat → Nat

/-- BitPlane::new: all rows zero. -/
def BitPlane.new : BitPlane := ⟨fun _ => 0⟩

/-- BitPlane::clear: reset all rows to zero. -/
def BitPlane.clear (_ : BitPlane) : BitPlane := ⟨fun _ => 0⟩

/-- Write one row of a bit plane (the `&mut self.rows[y]` update). -/
def BitPlane.setRow (bp : BitPlane) (y v : Nat) : BitPlane :=
  ⟨fun k => if k = y then v else bp.rows k⟩

/-- ScreenMode from screen.rs. -/
inductive ScreenMode
  | HighRes
  | LowRes
deriving DecidableEq, Repr

/-- XOR one (logical) pixel onto one cell of the plane: mask the column
bit, record a collision if the destination bit was set, and toggle it.
This is the per-cell body of BitPlane::draw_pixel. -/
def BitPlane.drawCell (bp : BitPlane) (x y : Nat) (pixel_mask : Nat) : BitPlane × Bool :=
  let xm := x % 128
  let ym := y % 64
  let row := bp.rows ym
  let mask := pixel_mask &&& (1 <<< (127 - xm))
  (bp.setRow ym (row ^^^ mask), row &&& mask ≠ 0)

/-- BitPlane::draw_pixel from screen.rs.  In low resolution the logical
coordinates are scaled by 2 and all four physical cells of the 2x2 block
are written (wrapping modulo 128x64, loop order y then x); in high
resolution a single cell is written, and a coordinate outside the
128x64 bound yields an implicit collision without writing. -/
def BitPlane.draw_pixel (bp : BitPlane) (x y : Nat) (pixel lores : Bool) : BitPlane × Bool :=
  let x := if lores then x * 2 else x
  let y := if lores then y * 2 else y
  let pixel_mask : Nat := if pixel then 2 ^ 128 - 1 else 0
  if lores then
    let (bp, c00) := bp.drawCell (x + 0) (y + 0) pixel_mask
    let (bp, c01) := bp.drawCell (x + 1) (y + 0) pixel_mask
    let (bp, c10) := bp.drawCell (x + 0) (y + 1) pixel_mask
    let (bp, c11) := bp.drawCell (x + 1) (y + 1) pixel_mask
    (bp, c00 || c01 || c10 || c11)
  else
    if x ≥ 128 ∨ y ≥ 64 then (bp, true)
    else bp.drawCell x y pixel_mask

/-- Draw the 8 bits of one sprite byte onto a plane, accumulating the
plane state and the collision count (the inner `for column in 0..8`
loop of Screen::draw_to_plane). -/
def BitPlane.drawByte (start : BitPlane × Nat) (b x y : Nat) (lores : Bool) :
    BitPlane × Nat :=
  (List.range 8).foldl
    (fun acc column =>
      let mask := 1 <<< (7 - column)
      let bit := b &&& mask ≠ 0
      let (bp, hit) := acc.1.draw_pixel (x + column) y bit lores
      (bp, acc.2 + if hit then 1 else 0))
    start

/-- Screen::draw_to_plane from screen.rs, for one plane.  The sprite
slice is given as a byte function together with the number of available
bytes (the Rust slice length); `chunks_exact(bytes_per_row).take(height)`
yields `min height (avail / bytes_per_row)` rows.  Each row draws its
bytes left to right at successive x offsets of 8. -/
def Screen.draw_to_plane (lores : Bool) (bp : BitPlane) (spr : Nat → Nat)
    (avail x y height : Nat) : BitPlane × Nat :=
  let bytes_per_row := if height = 0 then (if lores then 1 else 2) else 1
  let height' := if height = 0 then 16 else height
  let rows := min height' (avail / bytes_per_row)
  (List.range rows).foldl
    (fun acc row =>
      (List.range bytes_per_row).foldl
        (fun acc2 column_offset =>
          BitPlane.drawByte acc2 (spr (row * bytes_per_row + column_offset))
            (x + column_offset * 8) (y + row) lores)
        acc)
    (bp, 0)

/-- Screen from screen.rs: two bit planes, the 2-entry plane-selection
mask (PLANES = 2, unrolled into per-plane fields), and the resolution
mode. -/
structure Screen where
  plane0 : BitPlane
  plane1 : BitPlane
  selected0 : Bool
  selected1 : Bool
  mode : ScreenMode

/-- Screen::new: clear planes, selection mask [true, false], low
resolution. -/
def Screen.new : Screen :=
  { plane0 := BitPlane.new
    plane1 := BitPlane.new
    selected0 := true
    selected1 := false
    mode := ScreenMode.LowRes }

/-- Screen::disable_hires. -/
def Screen.disable_hires (s : Screen) : Screen :=
  { s with mode := ScreenMode.LowRes }

/-- Screen::enable_hires. -/
def Screen.enable_hires (s : Screen) : Screen :=
  { s with mode := ScreenMode.HighRes }

/-- Screen::is_lowres. -/
def Screen.is_lowres (s : Screen) : Bool :=
  s.mode = ScreenMode.LowRes

/-- Screen::clear: clear only the currently selected planes. -/
def Screen.clear (s : Screen) : Screen :=
  { s with
    plane0 := if s.selected0 then s.plane0.clear else s.plane0
    plane1 := if s.selected1 then s.plane1.clear else s.plane1 }

/-- Screen::draw_sprite from screen.rs: for each selected plane, consume
the next `sprite_size` bytes of the sprite slice and draw them, summing
collisions across planes.  `height = 0` selects the large-sprite format
(16 bytes in low resolution, 32 bytes = 16 rows of 2 in high
resolution).  The per-plane reslice `&sprite[start..]` is modelled by
offsetting the byte function and truncating the available length
(`avail - start`); the slice-start panic the source could hit with both
planes selected and a sprite slice shorter than `sprite_size` is
unreachable here, since plane 1 is never selected (see the plane-mask
invariant). -/
def Screen.draw_sprite (s : Screen) (spr : Nat → Nat) (avail x y height : Nat) :
    Screen × Nat :=
  let sprite_size := if height = 0 then (if s.is_lowres then 16 else 32) else height
  let step0 :=
    if s.selected0 then
      let start := 0 * sprite_size
      let (p, c) := Screen.draw_to_plane s.is_lowres s.plane0
        (fun j => spr (start + j)) (avail - start) x y height
      ({ s with plane0 := p }, 1, c)
    else (s, 0, 0)
  let s1 := step0.1
  let offset := step0.2.1
  let c1 := step0.2.2
  let step1 :=
    if s1.selected1 then
      let start := offset * sprite_size
      let (p, c) := Screen.draw_to_plane s1.is_lowres s1.plane1
        (fun j => spr (start + j)) (avail - start) x y height
      ({ s1 with plane1 := p }, c)
    else (s1, 0)
  (step1.1, c1 + step1.2)

/-! ## machine.rs : CPU state, memory, execution engine -/

/-- CPU from machine.rs: 16 8-bit registers (a total function; only
indices 0..15 are ever used, register operands being decoded through a
0x0F mask), the 16-bit index and instruction pointers, the skip latch
and the two countdown timers. -/
structure CPU where
  registers : Nat → Nat
  i : Nat
  ip : Nat
  skip : Bool
  sound_timer : Nat
  delay_timer : Nat

/-- CPU::new from machine.rs: zero registers, ip = 0x200. -/
def CPU.new : CPU :=
  { registers := fun _ => 0
    i := 0
    ip := 0x200
    skip := false
    sound_timer := 0
    delay_timer := 0 }

/-- Register read, `self.cpu[x]` (the Index impl). -/
def CPU.reg (c : CPU) (r : Register) : Nat :=
  c.registers r.val

/-- Register write, `self.cpu[x] = v` (the IndexMut impl). -/
def CPU.setReg (c : CPU) (r : Register) (v : Nat) : CPU :=
  { c with registers := fun k => if k = r.val then v else c.registers k }

/-- Write the flag register, `self.cpu.registers[0xF] = v`. -/
def CPU.setFlag (c : CPU) (v : Nat) : CPU :=
  { c with registers := fun k => if k = 0xF then v else c.registers k }

/-- MEMORY_SIZE from machine.rs: 2^16 bytes. -/
def MEMORY_SIZE : Nat := 2 ^ 16

/-- The error kinds of the execution engine.  In the source each is an
unconditional panic; the embedding surfaces them as values. -/
inductive EmuError
  | InvalidOpcode (addr b0 b1 : Nat)
  | IllegalInstruction (i : Instruction) (addr : Nat) (tier : AllowedInstructions)
  | StackUnderflow
  | Unimplemented (i : Instruction) (addr : Nat)
  | OutOfBounds
deriving DecidableEq, Repr

/-- Machine from machine.rs.  Memory is a total byte function (only
addresses below MEMORY_SIZE are ever accessed; the slice-bound panics of
the source are modelled as OutOfBounds errors).  The StdRng is modelled
as an injected deterministic byte stream together with a position, per
the RNG collaborator interface. -/
structure Machine where
  cpu : CPU
  stack : List Nat
  memory : Nat → Nat
  screen : Screen
  rng : Nat → Nat
  rngIdx : Nat

/-- Machine::new. -/
def Machine.new (rng : Nat → Nat) : Machine :=
  { cpu := CPU.new
    stack := []
    memory := fun _ => 0
    screen := Screen.new
    rng := rng
    rngIdx := 0 }

/-- Store one byte into memory (`self.memory[a] = b`). -/
def store_byte (mem : Nat → Nat) (a b : Nat) : Nat → Nat :=
  fun k => if k = a then b else mem k

/-- wrapping_add on u8. -/
def wrapping_add8 (a b : Nat) : Nat := (a + b) % 256

/-- overflowing_add on u8: the wrapped sum and the carry flag. -/
def overflowing_add8 (a b : Nat) : Nat × Bool := ((a + b) % 256, a + b ≥ 256)

/-- overflowing_sub on u8: the wrapped difference and the borrow flag. -/
def overflowing_sub8 (a b : Nat) : Nat × Bool := ((a + 256 - b) % 256, a < b)

/-- overflowing_shr on u8: Rust shifts by the amount modulo the bit
width and the boolean reports only whether the amount was at least the
bit width (it is NOT the bit shifted out). -/
def overflowing_shr8 (a s : Nat) : Nat × Bool := (a / 2 ^ (s % 8), s ≥ 8)

/-- overflowing_shl on u8: shift modulo the width, truncated to 8 bits;
the boolean reports only whether the amount was at least the width. -/
def overflowing_shl8 (a s : Nat) : Nat × Bool := (a * 2 ^ (s % 8) % 256, s ≥ 8)

/-- Machine::exec_clear_screen. -/
def Machine.exec_clear_screen (m : Machine) : Machine :=
  { m with screen := m.screen.clear }

/-- Machine::exec_return: pop the call stack into the instruction
pointer; popping an empty stack is a panic (StackUnderflow). -/
def Machine.exec_return (m : Machine) : Except EmuError Machine :=
  match m.stack with
  | [] => .error .StackUnderflow
  | ip :: rest => .ok { m with cpu := { m.cpu with ip := ip }, stack := rest }

/-- Machine::exec_hires. -/
def Machine.exec_hires (m : Machine) : Machine :=
  { m with screen := m.screen.enable_hires }

/-- Machine::exec_jump. -/
def Machine.exec_jump (m : Machine) (nnn : Address) : Machine :=
  { m with cpu := { m.cpu with ip := nnn.val } }

/-- Machine::exec_call: push the (already advanced) instruction pointer
and jump. -/
def Machine.exec_call (m : Machine) (nnn : Address) : Machine :=
  { m with stack := m.cpu.ip :: m.stack, cpu := { m.cpu with ip := nnn.val } }

/-- Machine::exec_skip_equal_constant. -/
def Machine.exec_skip_equal_constant (m : Machine) (x : Register) (kk : Constant) : Machine :=
  if m.cpu.reg x = kk.val then { m with cpu := { m.cpu with skip := true } } else m

/-- Machine::exec_skip_not_equal_constant. -/
def Machine.exec_skip_not_equal_constant (m : Machine) (x : Register) (kk : Constant) : Machine :=
  if m.cpu.reg x ≠ kk.val then { m with cpu := { m.cpu with skip := true } } else m

/-- Machine::exec_skip_equal. -/
def Machine.exec_skip_equal (m : Machine) (x y : Register) : Machine :=
  if m.cpu.reg x = m.cpu.reg y then { m with cpu := { m.cpu with skip := true } } else m

/-- Machine::exec_set. -/
def Machine.exec_set (m : Machine) (x : Register) (kk : Constant) : Machine :=
  { m with cpu := m.cpu.setReg x kk.val }

/-- Machine::exec_set_sum: wrapping 8-bit add of an immediate. -/
def Machine.exec_set_sum (m : Machine) (x : Register) (kk : Constant) : Machine :=
  { m with cpu := m.cpu.setReg x (wrapping_add8 (m.cpu.reg x) kk.val) }

/-- Machine::exec_mov. -/
def Machine.exec_mov (m : Machine) (x y : Register) : Machine :=
  { m with cpu := m.cpu.setReg x (m.cpu.reg y) }

/-- Machine::exec_or. -/
def Machine.exec_or (m : Machine) (x y : Register) : Machine :=
  { m with cpu := m.cpu.setReg x (m.cpu.reg x ||| m.cpu.reg y) }

/-- Machine::exec_and. -/
def Machine.exec_and (m : Machine) (x y : Register) : Machine :=
  { m with cpu := m.cpu.setReg x (m.cpu.reg x &&& m.cpu.reg y) }

/-- Machine::exec_xor. -/
def Machine.exec_xor (m : Machine) (x y : Register) : Machine :=
  { m with cpu := m.cpu.setReg x (m.cpu.reg x ^^^ m.cpu.reg y) }

/-- Machine::exec_add: wrapping sum into x, flag register = carry. -/
def Machine.exec_add (m : Machine) (x y : Register) : Machine :=
  let r := overflowing_add8 (m.cpu.reg x) (m.cpu.reg y)
  { m with cpu := (m.cpu.setReg x r.1).setFlag (if r.2 then 1 else 0) }

/-- Machine::exec_sub: wrapping difference into x, flag register = 1
when no borrow occurred. -/
def Machine.exec_sub (m : Machine) (x y : Register) : Machine :=
  let r := overflowing_sub8 (m.cpu.reg x) (m.cpu.reg y)
  { m with cpu := (m.cpu.setReg x r.1).setFlag (if r.2 then 0 else 1) }

/-- Machine::exec_shift_right: the shift source is register y under
Original shift mode and register x otherwise; the result goes to x and
the flag register receives the overflowing_shr boolean. -/
def Machine.exec_shift_right (m : Machine) (x y : Register) (comp : CompatibilityMode) : Machine :=
  let shift := if comp.shift = ShiftMode.Original then y else x
  let r := overflowing_shr8 (m.cpu.reg shift) 1
  { m with cpu := (m.cpu.setReg x r.1).setFlag (if r.2 then 1 else 0) }

/-- Machine::exec_rev_sub: y - x into x, flag register = 1 when no
borrow occurred. -/
def Machine.exec_rev_sub (m : Machine) (x y : Register) : Machine :=
  let r := overflowing_sub8 (m.cpu.reg y) (m.cpu.reg x)
  { m with cpu := (m.cpu.setReg x r.1).setFlag (if r.2 then 0 else 1) }

/-- Machine::exec_shift_left: source per the Shift axis, result to x,
flag register receives the overflowing_shl boolean. -/
def Machine.exec_shift_left (m : Machine) (x y : Register) (comp : CompatibilityMode) : Machine :=
  let shift := if comp.shift = ShiftMode.Original then y else x
  let r := overflowing_shl8 (m.cpu.reg shift) 1
  { m with cpu := (m.cpu.setReg x r.1).setFlag (if r.2 then 1 else 0) }

/-- Machine::exec_skip_not_equal. -/
def Machine.exec_skip_not_equal (m : Machine) (x y : Register) : Machine :=
  if m.cpu.reg x ≠ m.cpu.reg y then { m with cpu := { m.cpu with skip := true } } else m

/-- Machine::exec_load_i. -/
def Machine.exec_load_i (m : Machine) (nnn : Address) : Machine :=
  { m with cpu := { m.cpu with i := nnn.val } }

/-- Machine::exec_jump_relative: base register 0 under Original jump
mode, else the register selected by the address's high nibble; the
target is the address plus the base register's value. -/
def Machine.exec_jump_relative (m : Machine) (nnn : Address) (comp : CompatibilityMode) : Machine :=
  let x := match comp.jump_mode with
    | RelativeJumpMode.Original => 0
    | RelativeJumpMode.SuperChip => nnn.val / 256 % 16
  { m with cpu := { m.cpu with ip := nnn.val + m.cpu.registers x } }

/-- Machine::exec_random: one byte from the injected stream, masked by
the immediate. -/
def Machine.exec_random (m : Machine) (x : Register) (kk : Constant) : Machine :=
  { m with cpu := m.cpu.setReg x ((m.rng m.rngIdx % 256) &&& kk.val),
           rngIdx := m.rngIdx + 1 }

/-- Machine::exec_draw: draw the sprite at memory[i..] and set the flag
register: in low resolution only when at least one collision occurred
(VF is left untouched otherwise), in high resolution to
`collisions.max(255) as u8`.  The CollisionEnumeration axis is never
consulted. -/
def Machine.exec_draw (m : Machine) (x y : Register) (n : Constant) : Machine :=
  let xv := m.cpu.reg x
  let yv := m.cpu.reg y
  let i := m.cpu.i
  let r := m.screen.draw_sprite (fun j => m.memory (i + j)) (MEMORY_SIZE - i) xv yv n.val
  let m := { m with screen := r.1 }
  if m.screen.is_lowres ∧ r.2 ≠ 0 then
    { m with cpu := m.cpu.setFlag 1 }
  else if ¬ m.screen.is_lowres then
    { m with cpu := m.cpu.setFlag (max r.2 255 % 256) }
  else m

/-- Machine::exec_skip_not_pressed: the key assertion fails (panic) for
register values of 16 or more. -/
def Machine.exec_skip_not_pressed (m : Machine) (x : Register) (keys : Keys) : Except EmuError Machine :=
  let xv := m.cpu.reg x
  if xv ≥ 16 then .error .OutOfBounds
  else if ¬ keys.is_pressed xv then
    .ok { m with cpu := { m.cpu with skip := true } }
  else .ok m

/-- Machine::exec_load_delay. -/
def Machine.exec_load_delay (m : Machine) (x : Register) : Machine :=
  { m with cpu := m.cpu.setReg x m.cpu.delay_timer }

/-- The `for k in 0..16` scan of Machine::exec_wait_for_key: the first
pressed key code in ascending order, if any. -/
def wait_scan (keys : Keys) (k : Nat) : Option Nat :=
  if h : k < 16 then
    if keys.is_pressed k then some k else wait_scan keys (k + 1)
  else none
termination_by 16 - k

/-- Machine::exec_wait_for_key: write the first pressed key code to the
destination register, or rewind the (already advanced) instruction
pointer by 2 so the same instruction is fetched again. -/
def Machine.exec_wait_for_key (m : Machine) (x : Register) (keys : Keys) : Machine :=
  match wait_scan keys 0 with
  | some k => { m with cpu := m.cpu.setReg x k }
  | none => { m with cpu := { m.cpu with ip := (m.cpu.ip + 65536 - 2) % 65536 } }

/-- Machine::exec_store_sound. -/
def Machine.exec_store_sound (m : Machine) (x : Register) : Machine :=
  { m with cpu := { m.cpu with sound_timer := m.cpu.reg x } }

/-- Machine::exec_store_delay. -/
def Machine.exec_store_delay (m : Machine) (x : Register) : Machine :=
  { m with cpu := { m.cpu with delay_timer := m.cpu.reg x } }

/-- Machine::exec_add_i: wrapping 16-bit add of the register to the
index register, reduced modulo 4096 only under the Original address
space. -/
def Machine.exec_add_i (m : Machine) (x : Register) (comp : CompatibilityMode) : Machine :=
  let i := (m.cpu.i + m.cpu.reg x) % 65536
  let i := if comp.address_space = AddressSpace.Original then i % 4096 else i
  { m with cpu := { m.cpu with i := i } }

/-- Machine::lores_sprite_start. -/
def lores_sprite_start : Nat := 0

/-- Machine::hires_sprite_start: directly after the 5x16 low-resolution
font. -/
def hires_sprite_start : Nat := lores_sprite_start + 5 * 16

/-- Machine::exec_load_sprite: index register to the low-resolution
glyph of the register's value. -/
def Machine.exec_load_sprite (m : Machine) (x : Register) : Machine :=
  { m with cpu := { m.cpu with i := lores_sprite_start + m.cpu.reg x * 5 } }

/-- Machine::exec_load_hires_sprite. -/
def Machine.exec_load_hires_sprite (m : Machine) (x : Register) : Machine :=
  { m with cpu := { m.cpu with i := hires_sprite_start + m.cpu.reg x * 10 } }

/-- Machine::exec_store_bcd: hundreds, tens, ones of the register value
into memory[i], memory[i+1], memory[i+2]. -/
def Machine.exec_store_bcd (m : Machine) (x : Register) : Except EmuError Machine :=
  let v := m.cpu.reg x
  let i := m.cpu.i
  if i + 2 ≥ MEMORY_SIZE then .error .OutOfBounds
  else
    let mem := store_byte m.memory (i + 0) (v / 10 / 10 % 10)
    let mem := store_byte mem (i + 1) (v / 10 % 10)
    let mem := store_byte mem (i + 2) (v % 10)
    .ok { m with memory := mem }

/-- Machine::exec_store: copy registers 0..=x into memory[i..=i+x]
(the copy_from_slice), then advance the index register by x under
Original load-store mode.  The slice panics when i+x overruns memory. -/
def Machine.exec_store (m : Machine) (x : Register) (comp : CompatibilityMode) : Except EmuError Machine :=
  let xv := x.val
  let i := m.cpu.i
  if i + xv ≥ MEMORY_SIZE then .error .OutOfBounds
  else
    let mem := fun a => if i ≤ a ∧ a ≤ i + xv then m.cpu.registers (a - i) else m.memory a
    let cpu := if comp.load_store = LoadStoreMode.Original
      then { m.cpu with i := i + xv } else m.cpu
    .ok { m with memory := mem, cpu := cpu }

/-- Machine::exec_load: copy memory[i..=i+x] into registers 0..=x, then
advance the index register by x under Original load-store mode. -/
def Machine.exec_load (m : Machine) (x : Register) (comp : CompatibilityMode) : Except EmuError Machine :=
  let xv := x.val
  let i := m.cpu.i
  if i + xv ≥ MEMORY_SIZE then .error .OutOfBounds
  else
    let regs := fun k => if k ≤ xv then m.memory (i + k) else m.cpu.registers k
    let cpu := { m.cpu with registers := regs }
    let cpu := if comp.load_store = LoadStoreMode.Original
      then { cpu with i := i + xv } else cpu
    .ok { m with cpu := cpu }

/-- Machine::exec_store_user_flags: an empty body in the source. -/
def Machine.exec_store_user_flags (m : Machine) (_x : Register) : Machine := m

/-- Machine::exec_load_user_flags: an empty body in the source. -/
def Machine.exec_load_user_flags (m : Machine) (_x : Register) : Machine := m

/-- Machine::execute: the dispatch table.  Instructions with no arm in
the source match fall into the Unimplemented panic, which carries the
instruction and its address (the pointer has already advanced). -/
def Machine.execute (m : Machine) (i : Instruction) (comp : CompatibilityMode) (keys : Keys) :
    Except EmuError Machine :=
  match i with
  | .ClearScreen => .ok m.exec_clear_screen
  | .Return => m.exec_return
  | .HiRes => .ok m.exec_hires
  | .Jump nnn => .ok (m.exec_jump nnn)
  | .Call nnn => .ok (m.exec_call nnn)
  | .SkipEqualConstant x kk => .ok (m.exec_skip_equal_constant x kk)
  | .SkipNotEqualConstant x kk => .ok (m.exec_skip_not_equal_constant x kk)
  | .SkipEqual x y => .ok (m.exec_skip_equal x y)
  | .Set x kk => .ok (m.exec_set x kk)
  | .SetSum x kk => .ok (m.exec_set_sum x kk)
  | .Mov x y => .ok (m.exec_mov x y)
  | .Or x y => .ok (m.exec_or x y)
  | .And x y => .ok (m.exec_and x y)
  | .Xor x y => .ok (m.exec_xor x y)
  | .Add x y => .ok (m.exec_add x y)
  | .Sub x y => .ok (m.exec_sub x y)
  | .ShiftRight x y => .ok (m.exec_shift_right x y comp)
  | .RevSub x y => .ok (m.exec_rev_sub x y)
  | .ShiftLeft x y => .ok (m.exec_shift_left x y comp)
  | .SkipNotEqual x y => .ok (m.exec_skip_not_equal x y)
  | .LoadI nnn => .ok (m.exec_load_i nnn)
  | .JumpRelative nnn => .ok (m.exec_jump_relative nnn comp)
  | .Random x kk => .ok (m.exec_random x kk)
  | .Draw x y n => .ok (m.exec_draw x y n)
  | .SkipNotPressed x => m.exec_skip_not_pressed x keys
  | .LoadDelay x => .ok (m.exec_load_delay x)
  | .WaitForKey x => .ok (m.exec_wait_for_key x keys)
  | .StoreSound x => .ok (m.exec_store_sound x)
  | .StoreDelay x => .ok (m.exec_store_delay x)
  | .AddI x => .ok (m.exec_add_i x comp)
  | .LoadSprite x => .ok (m.exec_load_sprite x)
  | .LoadLargeSprite x => .ok (m.exec_load_hires_sprite x)
  | .StoreBCD x => m.exec_store_bcd x
  | .Store x => m.exec_store x comp
  | .Load x => m.exec_load x comp
  | .StoreUserFlags x => .ok (m.exec_store_user_flags x)
  | .LoadUserFlags x => .ok (m.exec_load_user_flags x)
  | i => .error (.Unimplemented i ((m.cpu.ip + 65536 - i.length) % 65536))

/-- Machine::decode: fetch two bytes at the instruction pointer and
decode them (only the first two bytes of the slice are ever read, see
the decoder theorems); a failed decode is the InvalidOpcode panic, and
fetching at the very last byte of memory would overrun the slice. -/
def Machine.decode (m : Machine) : Except EmuError Instruction :=
  if m.cpu.ip + 1 ≥ MEMORY_SIZE then .error .OutOfBounds
  else
    let b0 := m.memory m.cpu.ip
    let b1 := m.memory (m.cpu.ip + 1)
    match Instruction.decode [b0, b1] with
    | some i => .ok i
    | none => .error (.InvalidOpcode m.cpu.ip b0 b1)

/-- Machine::assert_legal: the legality gate against the configured
AllowedInstructions tier, before any state change. -/
def Machine.assert_legal (m : Machine) (i : Instruction) (comp : CompatibilityMode) :
    Except EmuError Unit :=
  if comp.allowed_instructions.is_legal i then .ok ()
  else .error (.IllegalInstruction i m.cpu.ip comp.allowed_instructions)

/-- Machine::decode_and_execute: one cycle.  Fetch and decode, check
legality, advance the instruction pointer by the instruction length,
read and clear the skip latch, and dispatch unless the latch was set. -/
def Machine.decode_and_execute (m : Machine) (comp : CompatibilityMode) (keys : Keys) :
    Except EmuError Machine := do
  let instruction ← m.decode
  let _ ← m.assert_legal instruction comp
  let m := { m with cpu := { m.cpu with ip := (m.cpu.ip + instruction.length) % 65536 } }
  let skip := m.cpu.skip
  let m := { m with cpu := { m.cpu with skip := false } }
  if skip then .ok m else m.execute instruction comp keys

/-- Machine::decrement_counters: decrement each nonzero timer. -/
def Machine.decrement_counters (m : Machine) : Machine :=
  { m with cpu := { m.cpu with
      sound_timer := if m.cpu.sound_timer ≠ 0 then m.cpu.sound_timer - 1 else m.cpu.sound_timer,
      delay_timer := if m.cpu.delay_timer ≠ 0 then m.cpu.delay_timer - 1 else m.cpu.delay_timer } }

/-- Machine::init_instruction_pointer. -/
def Machine.init_instruction_pointer (m : Machine) (ip : Nat) : Machine :=
  { m with cpu := { m.cpu with ip := ip } }

/-- Machine::load_program: copy the program verbatim into memory at the
caller-chosen start offset. -/
def Machine.load_program (m : Machine) (program : List Nat) (start : Nat) : Machine :=
  { m with memory := fun a =>
      if start ≤ a ∧ a < start + program.length then program.getD (a - start) 0
      else m.memory a }

/-- SPRITE_BYTES from machine.rs: the 16 low-resolution glyphs, 5 bytes
each. -/
def SPRITE_BYTES : List Nat :=
  [0xF0, 0x90, 0x90, 0x90, 0xF0,
   0x20, 0x60, 0x20, 0x20, 0x70,
   0xF0, 0x10, 0xF0, 0x80, 0xF0,
   0xF0, 0x10, 0xF0, 0x10, 0xF0,
   0x90, 0x90, 0xF0, 0x10, 0x10,
   0xF0, 0x80, 0xF0, 0x10, 0xF0,
   0xF0, 0x80, 0xF0, 0x90, 0xF0,
   0xF0, 0x10, 0x20, 0x40, 0x40,
   0xF0, 0x90, 0xF0, 0x90, 0xF0,
   0xF0, 0x90, 0xF0, 0x10, 0xF0,
   0xF0, 0x90, 0xF0, 0x90, 0x90,
   0xE0, 0x90, 0xE0, 0x90, 0xE0,
   0xF0, 0x80, 0x80, 0x80, 0xF0,
   0xE0, 0x90, 0x90, 0x90, 0xE0,
   0xF0, 0x80, 0xF0, 0x80, 0xF0,
   0xF0, 0x80, 0xF0, 0x80, 0x80]

/-- Machine::load_lowres_sprites: `memory[i] = SPRITE_BYTES[i]`. -/
def Machine.load_lowres_sprites (m : Machine) : Machine :=
  { m with memory :=
      SPRITE_BYTES.enum.foldl (fun mem ib => store_byte mem ib.1 ib.2) m.memory }

/-- Machine::load_hires_sprites: `memory[2i] = memory[2i+1] =
SPRITE_BYTES[i]` (each low-resolution row duplicated into two rows;
note the writes start at address 0). -/
def Machine.load_hires_sprites (m : Machine) : Machine :=
  { m with memory :=
      SPRITE_BYTES.enum.foldl (fun mem ib =>
        store_byte (store_byte mem (ib.1 * 2) ib.2) (ib.1 * 2 + 1) ib.2) m.memory }

/-- Machine::load_sprites: the low-resolution font, then the
high-resolution font. -/
def Machine.load_sprites (m : Machine) : Machine :=
  m.load_lowres_sprites.load_hires_sprites

/-! ## The external scheduler loop and reachable machine states -/

/-- The external scheduler's instruction loop: run a number of
execution cycles, stopping at the first error (per §5 the scheduler
calls one cycle per emulated instruction). -/
def Machine.cycles (m : Machine) (comp : CompatibilityMode) (keys : Keys) :
    Nat → Except EmuError Machine
  | 0 => .ok m
  | k + 1 => do
    let m' ← m.decode_and_execute comp keys
    m'.cycles comp keys k

/-- The machine states reachable from a fresh machine through the
public operations of the emulator core: execution cycles (under any
compatibility mode and key table), timer ticks, instruction-pointer
initialization, program loads and font loads. -/
inductive Reachable : Machine → Prop
  | new (rng : Nat → Nat) : Reachable (Machine.new rng)
  | cycle (m : Machine) (comp : CompatibilityMode) (keys : Keys) (m' : Machine) :
      Reachable m → m.decode_and_execute comp keys = .ok m' → Reachable m'
  | tick (m : Machine) : Reachable m → Reachable m.decrement_counters
  | set_ip (m : Machine) (ip : Nat) : Reachable m → Reachable (m.init_instruction_pointer ip)
  | load (m : Machine) (prog : List Nat) (start : Nat) :
      Reachable m → Reachable (m.load_program prog start)
  | fonts (m : Machine) : Reachable m → Reachable m.load_sprites

/-- The plane-selection/plane-1 invariant of the screen: the selection
mask is [true, false] and bit-plane 1 is all-zero. -/
def ScreenMaskInv (s : Screen) : Prop :=
  s.selected0 = true ∧ s.selected1 = false ∧ ∀ y, s.plane1.rows y = 0

/-! ## Concrete fixtures used by the claim theorems -/

/-- A key table with no key pressed. -/
def noKeys : Keys := ⟨fun _ => false⟩

/-- The default compatibility preset built by CompBuilder::new:
SuperChip shift and load-store, Original address space, instruction
gate, jump mode and collision counting. -/
def defaultComp : CompatibilityMode :=
  { shift := .SuperChip
    load_store := .SuperChip
    address_space := .Original
    allowed_instructions := .Original
    jump_mode := .Original
    collisions := .Original }

/-- The SuperChip preset built by CompBuilder::superchip_preset (the
address space stays Original). -/
def superChipComp : CompatibilityMode :=
  { shift := .SuperChip
    load_store := .SuperChip
    address_space := .Original
    allowed_instructions := .SuperChip
    jump_mode := .SuperChip
    collisions := .SuperChip }

/-- The default preset with the Shift axis set to Original. -/
def origShiftComp : CompatibilityMode :=
  { shift := .Original
    load_store := .SuperChip
    address_space := .Original
    allowed_instructions := .Original
    jump_mode := .Original
    collisions := .Original }

/-- The default preset with the LoadStore axis set to Original. -/
def origLoadStoreComp : CompatibilityMode :=
  { shift := .SuperChip
    load_store := .Original
    address_space := .Original
    allowed_instructions := .Original
    jump_mode := .Original
    collisions := .Original }

/-- A machine about to execute ShiftRight(V2, V3) (opcode 0x8236) with
V2 = 1, whose low bit is 1. -/
def shiftMachSR : Machine :=
  { cpu := { CPU.new with registers := fun k => if k = 2 then 1 else 0 }
    stack := []
    memory := fun a => if a = 0x200 then 0x82 else if a = 0x201 then 0x36 else 0
    screen := Screen.new
    rng := fun _ => 0
    rngIdx := 0 }

/-- A machine about to execute ShiftLeft(V2, V3) (opcode 0x823E) with
V3 = 0x80, whose high bit is 1. -/
def shiftMachSL : Machine :=
  { cpu := { CPU.new with registers := fun k => if k = 3 then 0x80 else 0 }
    stack := []
    memory := fun a => if a = 0x200 then 0x82 else if a = 0x201 then 0x3E else 0
    screen := Screen.new
    rng := fun _ => 0
    rngIdx := 0 }

/-- A machine about to execute Draw(V0, V1, 1) (opcode 0xD011) of an
all-zero sprite row on a low-resolution screen, with the flag register
holding 7. -/
def drawMach : Machine :=
  { cpu := { CPU.new with registers := fun k => if k = 15 then 7 else 0 }
    stack := []
    memory := fun a => if a = 0x200 then 0xD0 else if a = 0x201 then 0x11 else 0
    screen := Screen.new
    rng := fun _ => 0
    rngIdx := 0 }

/-- The same blank one-row draw on a high-resolution screen, with the
flag register initially 0. -/
def drawMachHi : Machine :=
  { cpu := CPU.new
    stack := []
    memory := fun a => if a = 0x200 then 0xD0 else if a = 0x201 then 0x11 else 0
    screen := { Screen.new with mode := ScreenMode.HighRes }
    rng := fun _ => 0
    rngIdx := 0 }

/-- A machine about to execute Store(V2) (opcode 0xF255) with the
index register at 0x300 and register k holding k + 10. -/
def storeMach : Machine :=
  { cpu := { CPU.new with registers := fun k => k + 10, i := 0x300 }
    stack := []
    memory := fun a => if a = 0x200 then 0xF2 else if a = 0x201 then 0x55 else 0
    screen := Screen.new
    rng := fun _ => 0
    rngIdx := 0 }

/-- A machine about to execute Exit (opcode 0x00FD). -/
def exitMach : Machine :=
  { cpu := CPU.new
    stack := []
    memory := fun a => if a = 0x200 then 0x00 else if a = 0x201 then 0xFD else 0
    screen := Screen.new
    rng := fun _ => 0
    rngIdx := 0 }

/-- The four-instruction skip-idiom program Set(V0, 5); SetSum(V0, 3);
SkipEqualConstant(V0, 8); ClearScreen, encoded at the conventional
program start 0x200 (bytes 0x6005 0x7003 0x3008 0x00E0). -/
def skipIdiomMem : Nat → Nat := fun a =>
  if a = 0x200 then 0x60 else if a = 0x201 then 0x05 else
  if a = 0x202 then 0x70 else if a = 0x203 then 0x03 else
  if a = 0x204 then 0x30 else if a = 0x205 then 0x08 else
  if a = 0x206 then 0x00 else if a = 0x207 then 0xE0 else 0

/-- A machine holding the skip-idiom program, with an arbitrary initial
screen and random stream. -/
def skipIdiomMach (s : Screen) (rng : Nat → Nat) : Machine :=
  { cpu := CPU.new
    stack := []
    memory := skipIdiomMem
    screen := s
    rng := rng
    rngIdx := 0 }

/-- A machine about to execute WaitForKey(V3) (opcode 0xF30A). -/
def waitKeyMach : Machine :=
  { cpu := CPU.new
    stack := []
    memory := fun a => if a = 0x200 then 0xF3 else if a = 0x201 then 0x0A else 0
    screen := Screen.new
    rng := fun _ => 0
    rngIdx := 0 }

/-- A key table with exactly key 5 pressed. -/
def key5Keys : Keys := ⟨fun k => k == 5⟩

/-! ## Helper lemmas -/

/-- The opcode-table lookup succeeds exactly on the nibble patterns of
the table. -/
theorem isSome_decodeRows (n0 n1 n2 n3 : Nat) (x y : Register) (n kk : Constant)
    (nnn : Address) :
    (Instruction.decodeRows n0 n1 n2 n3 x y n kk nnn).isSome ↔
      opcodeTableMatches n0 n1 n2 n3 := by
  unfold Instruction.decodeRows
  by_cases h1 : n0 = 0x0 ∧ n1 = 0x0 ∧ n2 = 0xC
  · rw [if_pos h1]
    simp only [opcodeTableMatches, Option.isSome_some, eq_self_iff_true, true_iff]
    exact Or.inl h1
  rw [if_neg h1]
  by_cases h2 : n0 = 0x0 ∧ n1 = 0x0 ∧ n2 = 0xE ∧ n3 = 0x0
  · rw [if_pos h2]
    simp only [opcodeTableMatches, Option.isSome_some, eq_self_iff_true, true_iff]
    exact Or.inr (Or.inl h2)
  rw [if_neg h2]
  by_cases h3 : n0 = 0x0 ∧ n1 = 0x0 ∧ n2 = 0xE ∧ n3 = 0xE
  · rw [if_pos h3]
    simp only [opcodeTableMatches, Option.isSome_some, eq_self_iff_true, true_iff]
    exact Or.inr (Or.inr (Or.inl h3))
  rw [if_neg h3]
  by_cases h4 : n0 = 0x0 ∧ n1 = 0x0 ∧ n2 = 0xF ∧ n3 = 0xB
  · rw [if_pos h4]
    simp only [opcodeTableMatches, Option.isSome_some, eq_self_iff_true, true_iff]
    exact Or.inr (Or.inr (Or.inr (Or.inl h4)))
  rw [if_neg h4]
  by_cases h5 : n0 = 0x0 ∧ n1 = 0x0 ∧ n2 = 0xF ∧ n3 = 0xC
  · rw [if_pos h5]
    simp only [opcodeTableMatches, Option.isSome_some, eq_self_iff_true, true_iff]
    exact Or.inr (Or.inr (Or.inr (Or.inr (Or.inl h5))))
  rw [if_neg h5]
  by_cases h6 : n0 = 0x0 ∧ n1 = 0x0 ∧ n2 = 0xF ∧ n3 = 0xD
  · rw [if_pos h6]
    simp only [opcodeTableMatches, Option.isSome_some, eq_self_iff_true, true_iff]
    exact Or.inr (Or.inr (Or.inr (Or.inr (Or.inr (Or.inl h6)))))
  rw [if_neg h6]
  by_cases h7 : n0 = 0x0 ∧ n1 = 0x0 ∧ n2 = 0xF ∧ n3 = 0xE
  · rw [if_pos h7]
    simp only [opcodeTableMatches, Option.isSome_some, eq_self_iff_true, true_iff]
    exact Or.inr (Or.inr (Or.inr (Or.inr (Or.inr (Or.inr (Or.inl h7))))))
  rw [if_neg h7]
  by_cases h8 : n0 = 0x0 ∧ n1 = 0x0 ∧ n2 = 0xF ∧ n3 = 0xF
  · rw [if_pos h8]
    simp only [opcodeTableMatches, Option.isSome_some, eq_self_iff_true, true_iff]
    exact Or.inr (Or.inr (Or.inr (Or.inr (Or.inr (Or.inr (Or.inr (Or.inl h8)))))))
  rw [if_neg h8]
  by_cases h9 : n0 = 0x1
  · rw [if_pos h9]
    simp only [opcodeTableMatches, Option.isSome_some, eq_self_iff_true, true_iff]
    exact Or.inr (Or.inr (Or.inr (Or.inr (Or.inr (Or.inr (Or.inr (Or.inr (Or.inl h9))))))))
  rw [if_neg h9]
  by_cases h10 : n0 = 0x2
  · rw [if_pos h10]
    simp only [opcodeTableMatches, Option.isSome_some, eq_self_iff_true, true_iff]
    exact Or.inr (Or.inr (Or.inr (Or.inr (Or.inr (Or.inr (Or.inr (Or.inr (Or.inr (Or.inl h10)))))))))
  rw [if_neg h10]
  by_cases h11 : n0 = 0x3
  · rw [if_pos h11]
    simp only [opcodeTableMatches, Option.isSome_some, eq_self_iff_true, true_iff]
    exact Or.inr (Or.inr (Or.inr (Or.inr (Or.inr (Or.inr (Or.inr (Or.inr (Or.inr (Or.inr (Or.inl h11))))))))))
  rw [if_neg h11]
  by_cases h12 : n0 = 0x4
  · rw [if_pos h12]
    simp only [opcodeTableMatches, Option.isSome_some, eq_self_iff_true, true_iff]
    exact Or.inr (Or.inr (Or.inr (Or.inr (Or.inr (Or.inr (Or.inr (Or.inr (Or.inr (Or.inr (Or.inr (Or.inl h12)))))))))))
  rw [if_neg h12]
  by_cases h13 : n0 = 0x5 ∧ n3 = 0x0
  · rw [if_pos h13]
    simp only [opcodeTableMatches, Option.isSome_some, eq_self_iff_true, true_iff]
    exact Or.inr (Or.inr (Or.inr (Or.inr (Or.inr (Or.inr (Or.inr (Or.inr (Or.inr (Or.inr (Or.inr (Or.inr (Or.inl h13))))))))))))
  rw [if_neg h13]
  by_cases h14 : n0 = 0x6
  · rw [if_pos h14]
    simp only [opcodeTableMatches, Option.isSome_some, eq_self_iff_true, true_iff]
    exact Or.inr (Or.inr (Or.inr (Or.inr (Or.inr (Or.inr (Or.inr (Or.inr (Or.inr (Or.inr (Or.inr (Or.inr (Or.inr (Or.inl h14)))))))))))))
  rw [if_neg h14]
  by_cases h15 : n0 = 0x7
  · rw [if_pos h15]
    simp only [opcodeTableMatches, Option.isSome_some, eq_self_iff_true, true_iff]
    exact Or.inr (Or.inr (Or.inr (Or.inr (Or.inr (Or.inr (Or.inr (Or.inr (Or.inr (Or.inr (Or.inr (Or.inr (Or.inr (Or.inr (Or.inl h15))))))))))))))
  rw [if_neg h15]
  by_cases h16 : n0 = 0x8 ∧ n3 = 0x0
  · rw [if_pos h16]
    simp only [opcodeTableMatches, Option.isSome_some, eq_self_iff_true, true_iff]
    exact Or.inr (Or.inr (Or.inr (Or.inr (Or.inr (Or.inr (Or.inr (Or.inr (Or.inr (Or.inr (Or.inr (Or.inr (Or.inr (Or.inr (Or.inr (Or.inl h16)))))))))))))))
  rw [if_neg h16]
  by_cases h17 : n0 = 0x8 ∧ n3 = 0x1
  · rw [if_pos h17]
    simp only [opcodeTableMatches, Option.isSome_some, eq_self_iff_true, true_iff]
    exact Or.inr (Or.inr (Or.inr (Or.inr (Or.inr (Or.inr (Or.inr (Or.inr (Or.inr (Or.inr (Or.inr (Or.inr (Or.inr (Or.inr (Or.inr (Or.inr (Or.inl h17))))))))))))))))
  rw [if_neg h17]
  by_cases h18 : n0 = 0x8 ∧ n3 = 0x2
  · rw [if_pos h18]
    simp only [opcodeTableMatches, Option.isSome_some, eq_self_iff_true, true_iff]
    exact Or.inr (Or.inr (Or.inr (Or.inr (Or.inr (Or.inr (Or.inr (Or.inr (Or.inr (Or.inr (Or.inr (Or.inr (Or.inr (Or.inr (Or.inr (Or.inr (Or.inr (Or.inl h18)))))))))))))))))
  rw [if_neg h18]
  by_cases h19 : n0 = 0x8 ∧ n3 = 0x3
  · rw [if_pos h19]
    simp only [opcodeTableMatches, Option.isSome_some, eq_self_iff_true, true_iff]
    exact Or.inr (Or.inr (Or.inr (Or.inr (Or.inr (Or.inr (Or.inr (Or.inr (Or.inr (Or.inr (Or.inr (Or.inr (Or.inr (Or.inr (Or.inr (Or.inr (Or.inr (Or.inr (Or.inl h19))))))))))))))))))
  rw [if_neg h19]
  by_cases h20 : n0 = 0x8 ∧ n3 = 0x4
  · rw [if_pos h20]
    simp only [opcodeTableMatches, Option.isSome_some, eq_self_iff_true, true_iff]
    exact Or.inr (Or.inr (Or.inr (Or.inr (Or.inr (Or.inr (Or.inr (Or.inr (Or.inr (Or.inr (Or.inr (Or.inr (Or.inr (Or.inr (Or.inr (Or.inr (Or.inr (Or.inr (Or.inr (Or.inl h20)))))))))))))))))))
  rw [if_neg h20]
  by_cases h21 : n0 = 0x8 ∧ n3 = 0x5
  · rw [if_pos h21]
    simp only [opcodeTableMatches, Option.isSome_some, eq_self_iff_true, true_iff]
    exact Or.inr (Or.inr (Or.inr (Or.inr (Or.inr (Or.inr (Or.inr (Or.inr (Or.inr (Or.inr (Or.inr (Or.inr (Or.inr (Or.inr (Or.inr (Or.inr (Or.inr (Or.inr (Or.inr (Or.inr (Or.inl h21))))))))))))))))))))
  rw [if_neg h21]
  by_cases h22 : n0 = 0x8 ∧ n3 = 0x6
  · rw [if_pos h22]
    simp only [opcodeTableMatches, Option.isSome_some, eq_self_iff_true, true_iff]
    exact Or.inr (Or.inr (Or.inr (Or.inr (Or.inr (Or.inr (Or.inr (Or.inr (Or.inr (Or.inr (Or.inr (Or.inr (Or.inr (Or.inr (Or.inr (Or.inr (Or.inr (Or.inr (Or.inr (Or.inr (Or.inr (Or.inl h22)))))))))))))))))))))
  rw [if_neg h22]
  by_cases h23 : n0 = 0x8 ∧ n3 = 0x7
  · rw [if_pos h23]
    simp only [opcodeTableMatches, Option.isSome_some, eq_self_iff_true, true_iff]
    exact Or.inr (Or.inr (Or.inr (Or.inr (Or.inr (Or.inr (Or.inr (Or.inr (Or.inr (Or.inr (Or.inr (Or.inr (Or.inr (Or.inr (Or.inr (Or.inr (Or.inr (Or.inr (Or.inr (Or.inr (Or.inr (Or.inr (Or.inl h23))))))))))))))))))))))
  rw [if_neg h23]
  by_cases h24 : n0 = 0x8 ∧ n3 = 0xE
  · rw [if_pos h24]
    simp only [opcodeTableMatches, Option.isSome_some, eq_self_iff_true, true_iff]
    exact Or.inr (Or.inr (Or.inr (Or.inr (Or.inr (Or.inr (Or.inr (Or.inr (Or.inr (Or.inr (Or.inr (Or.inr (Or.inr (Or.inr (Or.inr (Or.inr (Or.inr (Or.inr (Or.inr (Or.inr (Or.inr (Or.inr (Or.inr (Or.inl h24)))))))))))))))))))))))
  rw [if_neg h24]
  by_cases h25 : n0 = 0x9 ∧ n3 = 0x0
  · rw [if_pos h25]
    simp only [opcodeTableMatches, Option.isSome_some, eq_self_iff_true, true_iff]
    exact Or.inr (Or.inr (Or.inr (Or.inr (Or.inr (Or.inr (Or.inr (Or.inr (Or.inr (Or.inr (Or.inr (Or.inr (Or.inr (Or.inr (Or.inr (Or.inr (Or.inr (Or.inr (Or.inr (Or.inr (Or.inr (Or.inr (Or.inr (Or.inr (Or.inl h25))))))))))))))))))))))))
  rw [if_neg h25]
  by_cases h26 : n0 = 0xA
  · rw [if_pos h26]
    simp only [opcodeTableMatches, Option.isSome_some, eq_self_iff_true, true_iff]
    exact Or.inr (Or.inr (Or.inr (Or.inr (Or.inr (Or.inr (Or.inr (Or.inr (Or.inr (Or.inr (Or.inr (Or.inr (Or.inr (Or.inr (Or.inr (Or.inr (Or.inr (Or.inr (Or.inr (Or.inr (Or.inr (Or.inr (Or.inr (Or.inr (Or.inr (Or.inl h26)))))))))))))))))))))))))
  rw [if_neg h26]
  by_cases h27 : n0 = 0xB
  · rw [if_pos h27]
    simp only [opcodeTableMatches, Option.isSome_some, eq_self_iff_true, true_iff]
    exact Or.inr (Or.inr (Or.inr (Or.inr (Or.inr (Or.inr (Or.inr (Or.inr (Or.inr (Or.inr (Or.inr (Or.inr (Or.inr (Or.inr (Or.inr (Or.inr (Or.inr (Or.inr (Or.inr (Or.inr (Or.inr (Or.inr (Or.inr (Or.inr (Or.inr (Or.inr (Or.inl h27))))))))))))))))))))))))))
  rw [if_neg h27]
  by_cases h28 : n0 = 0xC
  · rw [if_pos h28]
    simp only [opcodeTableMatches, Option.isSome_some, eq_self_iff_true, true_iff]
    exact Or.inr (Or.inr (Or.inr (Or.inr (Or.inr (Or.inr (Or.inr (Or.inr (Or.inr (Or.inr (Or.inr (Or.inr (Or.inr (Or.inr (Or.inr (Or.inr (Or.inr (Or.inr (Or.inr (Or.inr (Or.inr (Or.inr (Or.inr (Or.inr (Or.inr (Or.inr (Or.inr (Or.inl h28)))))))))))))))))))))))))))
  rw [if_neg h28]
  by_cases h29 : n0 = 0xD
  · rw [if_pos h29]
    simp only [opcodeTableMatches, Option.isSome_some, eq_self_iff_true, true_iff]
    exact Or.inr (Or.inr (Or.inr (Or.inr (Or.inr (Or.inr (Or.inr (Or.inr (Or.inr (Or.inr (Or.inr (Or.inr (Or.inr (Or.inr (Or.inr (Or.inr (Or.inr (Or.inr (Or.inr (Or.inr (Or.inr (Or.inr (Or.inr (Or.inr (Or.inr (Or.inr (Or.inr (Or.inr (Or.inl h29))))))))))))))))))))))))))))
  rw [if_neg h29]
  by_cases h30 : n0 = 0xE ∧ n2 = 0x9 ∧ n3 = 0xE
  · rw [if_pos h30]
    simp only [opcodeTableMatches, Option.isSome_some, eq_self_iff_true, true_iff]
    exact Or.inr (Or.inr (Or.inr (Or.inr (Or.inr (Or.inr (Or.inr (Or.inr (Or.inr (Or.inr (Or.inr (Or.inr (Or.inr (Or.inr (Or.inr (Or.inr (Or.inr (Or.inr (Or.inr (Or.inr (Or.inr (Or.inr (Or.inr (Or.inr (Or.inr (Or.inr (Or.inr (Or.inr (Or.inr (Or.inl h30)))))))))))))))))))))))))))))
  rw [if_neg h30]
  by_cases h31 : n0 = 0xE ∧ n2 = 0xA ∧ n3 = 0x1
  · rw [if_pos h31]
    simp only [opcodeTableMatches, Option.isSome_some, eq_self_iff_true, true_iff]
    exact Or.inr (Or.inr (Or.inr (Or.inr (Or.inr (Or.inr (Or.inr (Or.inr (Or.inr (Or.inr (Or.inr (Or.inr (Or.inr (Or.inr (Or.inr (Or.inr (Or.inr (Or.inr (Or.inr (Or.inr (Or.inr (Or.inr (Or.inr (Or.inr (Or.inr (Or.inr (Or.inr (Or.inr (Or.inr (Or.inr (Or.inl h31))))))))))))))))))))))))))))))
  rw [if_neg h31]
  by_cases h32 : n0 = 0xF ∧ n2 = 0x0 ∧ n3 = 0x7
  · rw [if_pos h32]
    simp only [opcodeTableMatches, Option.isSome_some, eq_self_iff_true, true_iff]
    exact Or.inr (Or.inr (Or.inr (Or.inr (Or.inr (Or.inr (Or.inr (Or.inr (Or.inr (Or.inr (Or.inr (Or.inr (Or.inr (Or.inr (Or.inr (Or.inr (Or.inr (Or.inr (Or.inr (Or.inr (Or.inr (Or.inr (Or.inr (Or.inr (Or.inr (Or.inr (Or.inr (Or.inr (Or.inr (Or.inr (Or.inr (Or.inl h32)))))))))))))))))))))))))))))))
  rw [if_neg h32]
  by_cases h33 : n0 = 0xF ∧ n2 = 0x0 ∧ n3 = 0xA
  · rw [if_pos h33]
    simp only [opcodeTableMatches, Option.isSome_some, eq_self_iff_true, true_iff]
    exact Or.inr (Or.inr (Or.inr (Or.inr (Or.inr (Or.inr (Or.inr (Or.inr (Or.inr (Or.inr (Or.inr (Or.inr (Or.inr (Or.inr (Or.inr (Or.inr (Or.inr (Or.inr (Or.inr (Or.inr (Or.inr (Or.inr (Or.inr (Or.inr (Or.inr (Or.inr (Or.inr (Or.inr (Or.inr (Or.inr (Or.inr (Or.inr (Or.inl h33))))))))))))))))))))))))))))))))
  rw [if_neg h33]
  by_cases h34 : n0 = 0xF ∧ n2 = 0x1 ∧ n3 = 0x5
  · rw [if_pos h34]
    simp only [opcodeTableMatches, Option.isSome_some, eq_self_iff_true, true_iff]
    exact Or.inr (Or.inr (Or.inr (Or.inr (Or.inr (Or.inr (Or.inr (Or.inr (Or.inr (Or.inr (Or.inr (Or.inr (Or.inr (Or.inr (Or.inr (Or.inr (Or.inr (Or.inr (Or.inr (Or.inr (Or.inr (Or.inr (Or.inr (Or.inr (Or.inr (Or.inr (Or.inr (Or.inr (Or.inr (Or.inr (Or.inr (Or.inr (Or.inr (Or.inl h34)))))))))))))))))))))))))))))))))
  rw [if_neg h34]
  by_cases h35 : n0 = 0xF ∧ n2 = 0x1 ∧ n3 = 0x8
  · rw [if_pos h35]
    simp only [opcodeTableMatches, Option.isSome_some, eq_self_iff_true, true_iff]
    exact Or.inr (Or.inr (Or.inr (Or.inr (Or.inr (Or.inr (Or.inr (Or.inr (Or.inr (Or.inr (Or.inr (Or.inr (Or.inr (Or.inr (Or.inr (Or.inr (Or.inr (Or.inr (Or.inr (Or.inr (Or.inr (Or.inr (Or.inr (Or.inr (Or.inr (Or.inr (Or.inr (Or.inr (Or.inr (Or.inr (Or.inr (Or.inr (Or.inr (Or.inr (Or.inl h35))))))))))))))))))))))))))))))))))
  rw [if_neg h35]
  by_cases h36 : n0 = 0xF ∧ n2 = 0x1 ∧ n3 = 0xE
  · rw [if_pos h36]
    simp only [opcodeTableMatches, Option.isSome_some, eq_self_iff_true, true_iff]
    exact Or.inr (Or.inr (Or.inr (Or.inr (Or.inr (Or.inr (Or.inr (Or.inr (Or.inr (Or.inr (Or.inr (Or.inr (Or.inr (Or.inr (Or.inr (Or.inr (Or.inr (Or.inr (Or.inr (Or.inr (Or.inr (Or.inr (Or.inr (Or.inr (Or.inr (Or.inr (Or.inr (Or.inr (Or.inr (Or.inr (Or.inr (Or.inr (Or.inr (Or.inr (Or.inr (Or.inl h36)))))))))))))))))))))))))))))))))))
  rw [if_neg h36]
  by_cases h37 : n0 = 0xF ∧ n2 = 0x2 ∧ n3 = 0x9
  · rw [if_pos h37]
    simp only [opcodeTableMatches, Option.isSome_some, eq_self_iff_true, true_iff]
    exact Or.inr (Or.inr (Or.inr (Or.inr (Or.inr (Or.inr (Or.inr (Or.inr (Or.inr (Or.inr (Or.inr (Or.inr (Or.inr (Or.inr (Or.inr (Or.inr (Or.inr (Or.inr (Or.inr (Or.inr (Or.inr (Or.inr (Or.inr (Or.inr (Or.inr (Or.inr (Or.inr (Or.inr (Or.inr (Or.inr (Or.inr (Or.inr (Or.inr (Or.inr (Or.inr (Or.inr (Or.inl h37))))))))))))))))))))))))))))))))))))
  rw [if_neg h37]
  by_cases h38 : n0 = 0xF ∧ n2 = 0x3 ∧ n3 = 0x0
  · rw [if_pos h38]
    simp only [opcodeTableMatches, Option.isSome_some, eq_self_iff_true, true_iff]
    exact Or.inr (Or.inr (Or.inr (Or.inr (Or.inr (Or.inr (Or.inr (Or.inr (Or.inr (Or.inr (Or.inr (Or.inr (Or.inr (Or.inr (Or.inr (Or.inr (Or.inr (Or.inr (Or.inr (Or.inr (Or.inr (Or.inr (Or.inr (Or.inr (Or.inr (Or.inr (Or.inr (Or.inr (Or.inr (Or.inr (Or.inr (Or.inr (Or.inr (Or.inr (Or.inr (Or.inr (Or.inr (Or.inl h38)))))))))))))))))))))))))))))))))))))
  rw [if_neg h38]
  by_cases h39 : n0 = 0xF ∧ n2 = 0x3 ∧ n3 = 0x3
  · rw [if_pos h39]
    simp only [opcodeTableMatches, Option.isSome_some, eq_self_iff_true, true_iff]
    exact Or.inr (Or.inr (Or.inr (Or.inr (Or.inr (Or.inr (Or.inr (Or.inr (Or.inr (Or.inr (Or.inr (Or.inr (Or.inr (Or.inr (Or.inr (Or.inr (Or.inr (Or.inr (Or.inr (Or.inr (Or.inr (Or.inr (Or.inr (Or.inr (Or.inr (Or.inr (Or.inr (Or.inr (Or.inr (Or.inr (Or.inr (Or.inr (Or.inr (Or.inr (Or.inr (Or.inr (Or.inr (Or.inr (Or.inl h39))))))))))))))))))))))))))))))))))))))
  rw [if_neg h39]
  by_cases h40 : n0 = 0xF ∧ n2 = 0x5 ∧ n3 = 0x5
  · rw [if_pos h40]
    simp only [opcodeTableMatches, Option.isSome_some, eq_self_iff_true, true_iff]
    exact Or.inr (Or.inr (Or.inr (Or.inr (Or.inr (Or.inr (Or.inr (Or.inr (Or.inr (Or.inr (Or.inr (Or.inr (Or.inr (Or.inr (Or.inr (Or.inr (Or.inr (Or.inr (Or.inr (Or.inr (Or.inr (Or.inr (Or.inr (Or.inr (Or.inr (Or.inr (Or.inr (Or.inr (Or.inr (Or.inr (Or.inr (Or.inr (Or.inr (Or.inr (Or.inr (Or.inr (Or.inr (Or.inr (Or.inr (Or.inl h40)))))))))))))))))))))))))))))))))))))))
  rw [if_neg h40]
  by_cases h41 : n0 = 0xF ∧ n2 = 0x6 ∧ n3 = 0x5
  · rw [if_pos h41]
    simp only [opcodeTableMatches, Option.isSome_some, eq_self_iff_true, true_iff]
    exact Or.inr (Or.inr (Or.inr (Or.inr (Or.inr (Or.inr (Or.inr (Or.inr (Or.inr (Or.inr (Or.inr (Or.inr (Or.inr (Or.inr (Or.inr (Or.inr (Or.inr (Or.inr (Or.inr (Or.inr (Or.inr (Or.inr (Or.inr (Or.inr (Or.inr (Or.inr (Or.inr (Or.inr (Or.inr (Or.inr (Or.inr (Or.inr (Or.inr (Or.inr (Or.inr (Or.inr (Or.inr (Or.inr (Or.inr (Or.inr (Or.inl h41))))))))))))))))))))))))))))))))))))))))
  rw [if_neg h41]
  by_cases h42 : n0 = 0xF ∧ n2 = 0x7 ∧ n3 = 0x5
  · rw [if_pos h42]
    simp only [opcodeTableMatches, Option.isSome_some, eq_self_iff_true, true_iff]
    exact Or.inr (Or.inr (Or.inr (Or.inr (Or.inr (Or.inr (Or.inr (Or.inr (Or.inr (Or.inr (Or.inr (Or.inr (Or.inr (Or.inr (Or.inr (Or.inr (Or.inr (Or.inr (Or.inr (Or.inr (Or.inr (Or.inr (Or.inr (Or.inr (Or.inr (Or.inr (Or.inr (Or.inr (Or.inr (Or.inr (Or.inr (Or.inr (Or.inr (Or.inr (Or.inr (Or.inr (Or.inr (Or.inr (Or.inr (Or.inr (Or.inr (Or.inl h42)))))))))))))))))))))))))))))))))))))))))
  rw [if_neg h42]
  by_cases h43 : n0 = 0xF ∧ n2 = 0x8 ∧ n3 = 0x5
  · rw [if_pos h43]
    simp only [opcodeTableMatches, Option.isSome_some, eq_self_iff_true, true_iff]
    exact Or.inr (Or.inr (Or.inr (Or.inr (Or.inr (Or.inr (Or.inr (Or.inr (Or.inr (Or.inr (Or.inr (Or.inr (Or.inr (Or.inr (Or.inr (Or.inr (Or.inr (Or.inr (Or.inr (Or.inr (Or.inr (Or.inr (Or.inr (Or.inr (Or.inr (Or.inr (Or.inr (Or.inr (Or.inr (Or.inr (Or.inr (Or.inr (Or.inr (Or.inr (Or.inr (Or.inr (Or.inr (Or.inr (Or.inr (Or.inr (Or.inr (Or.inr (h43))))))))))))))))))))))))))))))))))))))))))
  rw [if_neg h43]
  simp only [opcodeTableMatches, Option.isSome_none, Bool.false_eq_true, false_iff]
  intro htab
  rcases htab with h|h|h|h|h|h|h|h|h|h|h|h|h|h|h|h|h|h|h|h|h|h|h|h|h|h|h|h|h|h|h|h|h|h|h|h|h|h|h|h|h|h|h
  · exact h1 h
  · exact h2 h
  · exact h3 h
  · exact h4 h
  · exact h5 h
  · exact h6 h
  · exact h7 h
  · exact h8 h
  · exact h9 h
  · exact h10 h
  · exact h11 h
  · exact h12 h
  · exact h13 h
  · exact h14 h
  · exact h15 h
  · exact h16 h
  · exact h17 h
  · exact h18 h
  · exact h19 h
  · exact h20 h
  · exact h21 h
  · exact h22 h
  · exact h23 h
  · exact h24 h
  · exact h25 h
  · exact h26 h
  · exact h27 h
  · exact h28 h
  · exact h29 h
  · exact h30 h
  · exact h31 h
  · exact h32 h
  · exact h33 h
  · exact h34 h
  · exact h35 h
  · exact h36 h
  · exact h37 h
  · exact h38 h
  · exact h39 h
  · exact h40 h
  · exact h41 h
  · exact h42 h
  · exact h43 h

/-! ## Claim theorems -/

/-- C1 (code bug evidence): `exec_shift_right` and `exec_shift_left`
never write the shifted-out bit to the flag register: Rust's
overflowing_shr/overflowing_shl report shift-amount overflow (always
false for a shift by 1), so register 15 is always set to 0.  Evaluated
at ShiftRight(V2, V3) with SuperChip shift and V2 = 1 (low bit 1) the
code leaves V2 = 0 and flag = 0 where the claim requires flag = 1, and
at ShiftLeft(V2, V3) with Original shift and V3 = 0x80 (high bit 1) it
leaves V2 = 0, V3 = 0x80 and flag = 0 where the claim requires
flag = 1. -/
theorem C1_shift_flag_eval :
    ((shiftMachSR.decode_and_execute defaultComp noKeys).map
      (fun m => (m.cpu.registers 2, m.cpu.registers 15)) = .ok (0, 0))
    ∧ ((shiftMachSL.decode_and_execute origShiftComp noKeys).map
      (fun m => (m.cpu.registers 2, m.cpu.registers 3, m.cpu.registers 15)) =
        .ok (0, 0x80, 0)) := by
  exact ⟨rfl, rfl⟩

/-- C2 (code bug evidence): `exec_draw` never consults the
CollisionEnumeration axis and does not reset the flag register on a
collision-free low-resolution draw.  Under Original
CollisionEnumeration, a blank draw with zero collisions leaves the
flag register at its stale value 7 where the claim requires it to be
set to 0, and the outcome is identical when the axis is flipped to
SuperChip, showing the flag is not determined by the axis. -/
theorem C2_draw_flag_eval :
    ((drawMach.decode_and_execute defaultComp noKeys).map
      (fun m => m.cpu.registers 15) = .ok 7)
    ∧ (drawMach.decode_and_execute
        { defaultComp with collisions := CollisionEnumeration.SuperChip } noKeys =
      drawMach.decode_and_execute defaultComp noKeys) := by
  exact ⟨rfl, rfl⟩

/-- C3 (code bug evidence): the high-resolution draw path computes
`collisions.max(255) as u8`, a maximum where the claim (and the intent
noted in the spec) requires a saturating minimum.  A high-resolution
draw with a total of 0 collisions writes 255 to the flag register where
the claim requires totals of at most 255 to be written unchanged. -/
theorem C3_draw_clamp_eval :
    ((drawMachHi.screen.draw_sprite (fun j => drawMachHi.memory (0 + j))
      (MEMORY_SIZE - 0) 0 0 1).2 = 0)
    ∧ ((drawMachHi.decode_and_execute defaultComp noKeys).map
      (fun m => m.cpu.registers 15) = .ok 255) := by
  exact ⟨rfl, rfl⟩

set_option maxRecDepth 16000 in
/-- C5 (code bug evidence): load_sprites first writes the
low-resolution font at addresses 0..80, but load_hires_sprites then
writes each font byte to addresses 2i and 2i+1 starting at address 0,
clobbering the low-resolution font and leaving 160..240 zero, although
hires_sprite_start() = 80 expects the high-resolution font at 80..240.
After load_sprites, memory[1] holds 0xF0 where the claim requires the
intact low-resolution glyph byte SPRITE_BYTES[1] = 0x90, and
memory[239] holds 0 where the claim requires the duplicated final
glyph row SPRITE_BYTES[79] = 0x80. -/
theorem C5_font_eval :
    (Machine.new (fun _ => 0)).load_sprites.memory 1 = 0xF0
    ∧ (Machine.new (fun _ => 0)).load_sprites.memory 239 = 0
    ∧ SPRITE_BYTES.getD 1 0 = 0x90
    ∧ SPRITE_BYTES.getD 79 0 = 0x80 := by
  refine ⟨?_, ?_, rfl, rfl⟩ <;> rfl

/-- C7: the skip-latch semantics.  Running the four-instruction program
Set(V0, 5); SetSum(V0, 3); SkipEqualConstant(V0, 8); ClearScreen from
any initial screen (and any compatibility mode, key table and random
stream): after three cycles register 0 holds 8 and the screen is
untouched, and after the fourth cycle the screen is still the initial
screen because the latched skip discards the ClearScreen. -/
theorem C7_skip_idiom (s : Screen) (rng : Nat → Nat) (comp : CompatibilityMode)
    (keys : Keys) :
    ((skipIdiomMach s rng).cycles comp keys 3).map
      (fun m => (m.cpu.registers 0, m.screen)) = .ok (8, s)
    ∧ ((skipIdiomMach s rng).cycles comp keys 4).map (fun m => m.screen) = .ok s := by
  constructor <;>
    simp [Machine.cycles, Machine.decode_and_execute, Machine.decode,
      Machine.assert_legal, skipIdiomMach, skipIdiomMem,
      Instruction.decode, Instruction.decodeRows, extract_x, extract_y, extract_n,
      extract_kk, extract_nnn, extract_nibbles, AllowedInstructions.is_legal,
      Instruction.needed_comp, AllowedInstructions.toNum, Instruction.length,
      Machine.execute, Machine.exec_set, Machine.exec_set_sum,
      Machine.exec_skip_equal_constant, Machine.exec_clear_screen, wrapping_add8,
      CPU.setReg, CPU.reg, CPU.new, MEMORY_SIZE,
      Bind.bind, Except.bind, Functor.map, Except.map, Pure.pure, Except.pure, Nat.ble]

/-- C10: the decoder is a total pure function of the first two bytes of
its input slice: its result is unchanged by everything after the first
two bytes (so equal leading bytes give equal results), and it returns
some instruction exactly when the four extracted nibbles match a row of
the fixed opcode table, none otherwise. -/
theorem C10_decode_total (b0 b1 : Nat) (r r' : List Nat) :
    Instruction.decode (b0 :: b1 :: r) = Instruction.decode (b0 :: b1 :: r')
    ∧ ((Instruction.decode (b0 :: b1 :: r)).isSome ↔
      opcodeTableMatches (b0 / 16 % 16) (b0 % 16) (b1 / 16 % 16) (b1 % 16)) := by
  exact ⟨rfl, isSome_decodeRows _ _ _ _ _ _ _ _ _⟩

/-- The memory size evaluates to 65536. -/
theorem MEMORY_SIZE_eq : MEMORY_SIZE = 65536 := by norm_num [MEMORY_SIZE]

/-- A zero ordinal passes any tier gate. -/
theorem ble_zero_true (n : Nat) : Nat.ble 0 n = true := by cases n <;> rfl

/-- The WaitForKey scan finds nothing when no key below 16 is pressed. -/
theorem wait_scan_none (keys : Keys) (h : ∀ k, k < 16 → keys.key_values k = false) :
    wait_scan keys 0 = none := by
  simp [wait_scan, Keys.is_pressed, h]

/-- The ascending WaitForKey scan returns the lowest pressed key code. -/
theorem wait_scan_least (keys : Keys) (k : Nat) (hk : k < 16)
    (hkp : keys.key_values k = true) (hmin : ∀ j, j < k → keys.key_values j = false) :
    wait_scan keys 0 = some k := by
  interval_cases k <;> simp_all [wait_scan, Keys.is_pressed]

/-- Screen::clear preserves the plane-selection/plane-1 invariant: with
plane 1 unselected it is left untouched. -/
theorem screen_clear_inv (s : Screen) (h : ScreenMaskInv s) : ScreenMaskInv s.clear := by
  obtain ⟨h0, h1, h2⟩ := h
  refine ⟨h0, h1, ?_⟩
  simp only [Screen.clear, h1, if_neg Bool.false_ne_true]
  exact h2

/-- Screen::draw_sprite preserves the plane-selection/plane-1 invariant:
with plane 1 unselected only plane 0 is drawn to. -/
theorem screen_draw_inv (s : Screen) (spr : Nat → Nat) (avail x y hgt : Nat)
    (h : ScreenMaskInv s) : ScreenMaskInv (s.draw_sprite spr avail x y hgt).1 := by
  obtain ⟨h0, h1, h2⟩ := h
  simp only [Screen.draw_sprite, h0, h1, if_pos, if_neg Bool.false_ne_true]
  exact ⟨rfl, rfl, h2⟩

/-- Every successfully dispatched instruction preserves the
plane-selection/plane-1 invariant of the screen. -/
theorem execute_screen_inv (m : Machine) (i : Instruction) (comp : CompatibilityMode)
    (keys : Keys) (m' : Machine) (h : ScreenMaskInv m.screen)
    (he : m.execute i comp keys = .ok m') : ScreenMaskInv m'.screen := by
  cases i with
  | Jump nnn =>
    simp only [Machine.execute, Except.ok.injEq] at he
    subst he; exact h
  | Call nnn =>
    simp only [Machine.execute, Except.ok.injEq] at he
    subst he; exact h
  | Set x kk =>
    simp only [Machine.execute, Except.ok.injEq] at he
    subst he; exact h
  | SetSum x kk =>
    simp only [Machine.execute, Except.ok.injEq] at he
    subst he; exact h
  | Mov x y =>
    simp only [Machine.execute, Except.ok.injEq] at he
    subst he; exact h
  | Or x y =>
    simp only [Machine.execute, Except.ok.injEq] at he
    subst he; exact h
  | And x y =>
    simp only [Machine.execute, Except.ok.injEq] at he
    subst he; exact h
  | Xor x y =>
    simp only [Machine.execute, Except.ok.injEq] at he
    subst he; exact h
  | Add x y =>
    simp only [Machine.execute, Except.ok.injEq] at he
    subst he; exact h
  | Sub x y =>
    simp only [Machine.execute, Except.ok.injEq] at he
    subst he; exact h
  | ShiftRight x y =>
    simp only [Machine.execute, Except.ok.injEq] at he
    subst he; exact h
  | RevSub x y =>
    simp only [Machine.execute, Except.ok.injEq] at he
    subst he; exact h
  | ShiftLeft x y =>
    simp only [Machine.execute, Except.ok.injEq] at he
    subst he; exact h
  | LoadI nnn =>
    simp only [Machine.execute, Except.ok.injEq] at he
    subst he; exact h
  | JumpRelative nnn =>
    simp only [Machine.execute, Except.ok.injEq] at he
    subst he; exact h
  | Random x kk =>
    simp only [Machine.execute, Except.ok.injEq] at he
    subst he; exact h
  | LoadDelay x =>
    simp only [Machine.execute, Except.ok.injEq] at he
    subst he; exact h
  | StoreSound x =>
    simp only [Machine.execute, Except.ok.injEq] at he
    subst he; exact h
  | StoreDelay x =>
    simp only [Machine.execute, Except.ok.injEq] at he
    subst he; exact h
  | AddI x =>
    simp only [Machine.execute, Except.ok.injEq] at he
    subst he; exact h
  | LoadSprite x =>
    simp only [Machine.execute, Except.ok.injEq] at he
    subst he; exact h
  | LoadLargeSprite x =>
    simp only [Machine.execute, Except.ok.injEq] at he
    subst he; exact h
  | StoreUserFlags x =>
    simp only [Machine.execute, Except.ok.injEq] at he
    subst he; exact h
  | LoadUserFlags x =>
    simp only [Machine.execute, Except.ok.injEq] at he
    subst he; exact h
  | HiRes =>
    simp only [Machine.execute, Except.ok.injEq] at he
    subst he; exact h
  | ClearScreen =>
    simp only [Machine.execute, Except.ok.injEq] at he
    subst he; exact screen_clear_inv _ h
  | SkipEqualConstant x kk =>
    simp only [Machine.execute, Except.ok.injEq] at he
    subst he
    simp only [Machine.exec_skip_equal_constant]
    split <;> exact h
  | SkipNotEqualConstant x kk =>
    simp only [Machine.execute, Except.ok.injEq] at he
    subst he
    simp only [Machine.exec_skip_not_equal_constant]
    split <;> exact h
  | SkipEqual x y =>
    simp only [Machine.execute, Except.ok.injEq] at he
    subst he
    simp only [Machine.exec_skip_equal]
    split <;> exact h
  | SkipNotEqual x y =>
    simp only [Machine.execute, Except.ok.injEq] at he
    subst he
    simp only [Machine.exec_skip_not_equal]
    split <;> exact h
  | WaitForKey x =>
    simp only [Machine.execute, Except.ok.injEq] at he
    subst he
    simp only [Machine.exec_wait_for_key]
    split <;> exact h
  | Draw x y n =>
    simp only [Machine.execute, Except.ok.injEq] at he
    subst he
    simp only [Machine.exec_draw, apply_ite Machine.screen, ite_self]
    exact screen_draw_inv _ _ _ _ _ _ h
  | Return =>
    simp only [Machine.execute, Machine.exec_return] at he
    split at he <;>
      first
      | exact (Except.noConfusion he)
      | (simp only [Except.ok.injEq] at he; subst he; exact h)
  | SkipNotPressed x =>
    simp only [Machine.execute, Machine.exec_skip_not_pressed] at he
    split at he
    · exact (Except.noConfusion he)
    · split at he <;> (simp only [Except.ok.injEq] at he; subst he; exact h)
  | StoreBCD x =>
    simp only [Machine.execute, Machine.exec_store_bcd] at he
    split at he <;>
      first
      | exact (Except.noConfusion he)
      | (simp only [Except.ok.injEq] at he; subst he; exact h)
  | Store x =>
    simp only [Machine.execute, Machine.exec_store] at he
    split at he <;>
      first
      | exact (Except.noConfusion he)
      | (simp only [Except.ok.injEq] at he; subst he; exact h)
  | Load x =>
    simp only [Machine.execute, Machine.exec_load] at he
    split at he <;>
      first
      | exact (Except.noConfusion he)
      | (simp only [Except.ok.injEq] at he; subst he; exact h)
  | SkipPressed x =>
    simp only [Machine.execute] at he
    exact (Except.noConfusion he)
  | ScrollDown n =>
    simp only [Machine.execute] at he
    exact (Except.noConfusion he)
  | ScrollRight =>
    simp only [Machine.execute] at he
    exact (Except.noConfusion he)
  | ScrollLeft =>
    simp only [Machine.execute] at he
    exact (Except.noConfusion he)
  | Exit =>
    simp only [Machine.execute] at he
    exact (Except.noConfusion he)
  | LoRes =>
    simp only [Machine.execute] at he
    exact (Except.noConfusion he)

/-- Every successful execution cycle preserves the
plane-selection/plane-1 invariant of the screen. -/
theorem dce_screen_inv (m : Machine) (comp : CompatibilityMode) (keys : Keys)
    (m' : Machine) (h : ScreenMaskInv m.screen)
    (he : m.decode_and_execute comp keys = .ok m') : ScreenMaskInv m'.screen := by
  unfold Machine.decode_and_execute Machine.assert_legal at he
  simp only [Bind.bind, Except.bind] at he
  split at he
  · exact (Except.noConfusion he)
  · split at he
    · exact (Except.noConfusion he)
    · split at he
      · simp only [Except.ok.injEq] at he
        subst he
        exact h
      · refine execute_screen_inv _ _ comp keys m' ?_ he
        exact h

/-- C4 counterexample: executing Store(V2) under Original LoadStore with
the index register at 0x300 leaves the index register at 0x302 = 0x300 + x,
not at 0x300 + x + 1 = 0x303 as the claim states. -/
theorem C4_counterexample :
    ((storeMach.decode_and_execute origLoadStoreComp noKeys).map
      (fun m => m.cpu.i) = .ok 0x302)
    ∧ (0x302 : Nat) ≠ 0x300 + 2 + 1 := by
  exact ⟨rfl, by decide⟩

/-- C4 as amended: Store(x) copies registers 0..=x to memory at the
index register and Load(x) copies memory back into registers 0..=x;
afterwards the index register is advanced by exactly x (not x + 1) under
Original LoadStore and left unchanged under SuperChip LoadStore. -/
theorem C4_block_transfer (m : Machine) (comp : CompatibilityMode) (keys : Keys)
    (x : Register) (hx : x.val < 16) (hi : m.cpu.i + x.val < MEMORY_SIZE) :
    (∃ m', m.execute (.Store x) comp keys = .ok m'
      ∧ (∀ a, m.cpu.i ≤ a → a ≤ m.cpu.i + x.val →
          m'.memory a = m.cpu.registers (a - m.cpu.i))
      ∧ (∀ a, a < m.cpu.i ∨ m.cpu.i + x.val < a → m'.memory a = m.memory a)
      ∧ m'.cpu.registers = m.cpu.registers
      ∧ (comp.load_store = .Original → m'.cpu.i = m.cpu.i + x.val)
      ∧ (comp.load_store = .SuperChip → m'.cpu.i = m.cpu.i))
    ∧ (∃ m', m.execute (.Load x) comp keys = .ok m'
      ∧ (∀ k, k ≤ x.val → m'.cpu.registers k = m.memory (m.cpu.i + k))
      ∧ (∀ k, x.val < k → m'.cpu.registers k = m.cpu.registers k)
      ∧ m'.memory = m.memory
      ∧ (comp.load_store = .Original → m'.cpu.i = m.cpu.i + x.val)
      ∧ (comp.load_store = .SuperChip → m'.cpu.i = m.cpu.i)) := by
  have hg : ¬ (m.cpu.i + x.val ≥ MEMORY_SIZE) := by rw [MEMORY_SIZE_eq] at *; omega
  have hS : m.execute (.Store x) comp keys = .ok
      { m with
        memory := fun a => if m.cpu.i ≤ a ∧ a ≤ m.cpu.i + x.val
          then m.cpu.registers (a - m.cpu.i) else m.memory a
        cpu := if comp.load_store = LoadStoreMode.Original
          then { m.cpu with i := m.cpu.i + x.val } else m.cpu } := by
    simp only [Machine.execute, Machine.exec_store]
    rw [if_neg hg]
  have hL : m.execute (.Load x) comp keys = .ok
      { m with cpu :=
          if comp.load_store = LoadStoreMode.Original
          then { { m.cpu with registers := fun k =>
                    if k ≤ x.val then m.memory (m.cpu.i + k) else m.cpu.registers k }
                 with i := m.cpu.i + x.val }
          else { m.cpu with registers := fun k =>
                  if k ≤ x.val then m.memory (m.cpu.i + k) else m.cpu.registers k } } := by
    simp only [Machine.execute, Machine.exec_load]
    rw [if_neg hg]
  constructor
  · refine ⟨_, hS, ?_, ?_, ?_, ?_, ?_⟩
    · intro a h1 h2
      simp [h1, h2]
    · intro a ha
      have hcond : ¬ (m.cpu.i ≤ a ∧ a ≤ m.cpu.i + x.val) := by omega
      simp [hcond]
    · cases hls : comp.load_store <;> simp [hls]
    · intro hls; simp [hls]
    · intro hls; simp [hls]
  · refine ⟨_, hL, ?_, ?_, ?_, ?_, ?_⟩
    · intro k hk
      cases hls : comp.load_store <;> simp [hls, hk]
    · intro k hk
      have hnk : ¬ (k ≤ x.val) := by omega
      cases hls : comp.load_store <;> simp [hls, hnk]
    · cases hls : comp.load_store <;> simp [hls]
    · intro hls; simp [hls]
    · intro hls; simp [hls]

/-- Witness for C4: the amended theorem applied to the concrete Store
fixture, with both hypotheses discharged. -/
theorem C4_block_transfer_witness :
    (Register.mk 2).val < 16 ∧ storeMach.cpu.i + (Register.mk 2).val < MEMORY_SIZE
    ∧ ∃ m', storeMach.execute (.Store ⟨2⟩) origLoadStoreComp noKeys = .ok m'
        ∧ m'.cpu.i = storeMach.cpu.i + 2 := by
  refine ⟨by decide, by decide, ?_⟩
  obtain ⟨m', he, _, _, _, hOrig, _⟩ :=
    (C4_block_transfer storeMach origLoadStoreComp noKeys ⟨2⟩ (by decide) (by decide)).1
  exact ⟨m', he, hOrig rfl⟩

/-- C6 counterexample: with the tier raised to SuperChip, the Exit
instruction passes the legality gate but does not execute normally: the
dispatch has no arm for it and the cycle fails with Unimplemented. -/
theorem C6_counterexample :
    exitMach.decode_and_execute superChipComp noKeys =
      .error (.Unimplemented .Exit 0x200) := by rfl

/-- C6 as amended: a fetched Exit instruction under AllowedInstructions
= Original fails the legality gate with IllegalInstruction (carrying the
instruction, its address and the active tier) before any state change;
under a higher tier it passes the gate but its dispatch raises
Unimplemented (carrying the instruction and its address), because Exit
has no execution body. -/
theorem C6_exit_tier (m : Machine) (comp : CompatibilityMode) (keys : Keys)
    (h0 : m.memory m.cpu.ip = 0x00) (h1 : m.memory (m.cpu.ip + 1) = 0xFD)
    (hip : m.cpu.ip + 2 < MEMORY_SIZE) :
    (comp.allowed_instructions = .Original →
      m.decode_and_execute comp keys =
        .error (.IllegalInstruction .Exit m.cpu.ip .Original))
    ∧ (comp.allowed_instructions ≠ .Original → m.cpu.skip = false →
      m.decode_and_execute comp keys = .error (.Unimplemented .Exit m.cpu.ip)) := by
  rw [MEMORY_SIZE_eq] at hip
  have hnot : ¬ (m.cpu.ip + 1 ≥ MEMORY_SIZE) := by rw [MEMORY_SIZE_eq]; omega
  have hdec : m.decode = .ok .Exit := by
    simp [Machine.decode, if_neg hnot, h0, h1, Instruction.decode, Instruction.decodeRows,
      extract_x, extract_y, extract_n, extract_kk, extract_nnn, extract_nibbles]
  have harith : ((m.cpu.ip + 2) % 65536 + 65536 - 2) % 65536 = m.cpu.ip := by omega
  constructor
  · intro ha
    simp [Machine.decode_and_execute, hdec, Machine.assert_legal, ha,
      AllowedInstructions.is_legal, Instruction.needed_comp, AllowedInstructions.toNum,
      Nat.ble, Bind.bind, Except.bind]
  · intro ha hskip
    cases hA : comp.allowed_instructions with
    | Original => exact absurd hA ha
    | SuperChip =>
      simp [Machine.decode_and_execute, hdec, Machine.assert_legal, hA, hskip,
        AllowedInstructions.is_legal, Instruction.needed_comp, AllowedInstructions.toNum,
        Nat.ble, Bind.bind, Except.bind, Machine.execute, Instruction.length, harith]
      omega
    | XOChip =>
      simp [Machine.decode_and_execute, hdec, Machine.assert_legal, hA, hskip,
        AllowedInstructions.is_legal, Instruction.needed_comp, AllowedInstructions.toNum,
        Nat.ble, Bind.bind, Except.bind, Machine.execute, Instruction.length, harith]
      omega

/-- Witness for C6: the amended theorem applied to the concrete Exit
fixture at both tiers, with all hypotheses discharged. -/
theorem C6_exit_tier_witness :
    exitMach.memory exitMach.cpu.ip = 0x00
    ∧ exitMach.memory (exitMach.cpu.ip + 1) = 0xFD
    ∧ exitMach.cpu.ip + 2 < MEMORY_SIZE
    ∧ exitMach.decode_and_execute defaultComp noKeys =
        .error (.IllegalInstruction .Exit exitMach.cpu.ip .Original)
    ∧ exitMach.decode_and_execute superChipComp noKeys =
        .error (.Unimplemented .Exit exitMach.cpu.ip) := by
  refine ⟨rfl, rfl, by decide, ?_, ?_⟩
  · exact (C6_exit_tier exitMach defaultComp noKeys rfl rfl (by decide)).1 rfl
  · exact (C6_exit_tier exitMach superChipComp noKeys rfl rfl (by decide)).2 (by decide) rfl

/-- C8: a WaitForKey(x) cycle scans the 16 key codes in ascending
order.  If no key is pressed the cycle succeeds and returns exactly the
pre-state (the instruction pointer, having been advanced, is rewound by
the instruction length back onto the same instruction, and nothing else
changes); if some key is pressed, the lowest pressed code is written to
register x and the instruction pointer ends two bytes past the
instruction. -/
theorem C8_wait_for_key (m : Machine) (keys : Keys) (comp : CompatibilityMode) (x : Nat)
    (hx : x < 16) (hskip : m.cpu.skip = false)
    (hb0 : m.memory m.cpu.ip = 240 + x) (hb1 : m.memory (m.cpu.ip + 1) = 0x0A)
    (hip : m.cpu.ip + 2 < MEMORY_SIZE) :
    ((∀ k, k < 16 → keys.key_values k = false) →
      m.decode_and_execute comp keys = .ok m)
    ∧ (∀ k, k < 16 → keys.key_values k = true →
        (∀ j, j < k → keys.key_values j = false) →
        m.decode_and_execute comp keys =
          .ok { m with cpu := { m.cpu with
            ip := m.cpu.ip + 2,
            registers := fun v => if v = x then k else m.cpu.registers v } }) := by
  obtain ⟨⟨regs, i, ip, skip, st, dt⟩, stack, mem, scr, rng, ridx⟩ := m
  dsimp only at hskip hb0 hb1 hip ⊢
  subst hskip
  rw [MEMORY_SIZE_eq] at hip
  have hnot : ¬ (ip + 1 ≥ MEMORY_SIZE) := by rw [MEMORY_SIZE_eq]; omega
  have h16a : (240 + x) / 16 % 16 = 15 := by omega
  have h16b : (240 + x) % 16 = x := by omega
  have hdec : Machine.decode ⟨⟨regs, i, ip, false, st, dt⟩, stack, mem, scr, rng, ridx⟩ =
      .ok (.WaitForKey ⟨x⟩) := by
    simp [Machine.decode, if_neg hnot, hb0, hb1, Instruction.decode, Instruction.decodeRows,
      extract_x, extract_y, extract_n, extract_kk, extract_nnn, extract_nibbles, h16a, h16b]
  have hadv : (ip + 2) % 65536 = ip + 2 := by omega
  have hrew : ((ip + 2) % 65536 + 65536 - 2) % 65536 = ip := by omega
  constructor
  · intro hn
    simp [Machine.decode_and_execute, Bind.bind, Except.bind, hdec,
      Machine.assert_legal, AllowedInstructions.is_legal, Instruction.needed_comp,
      AllowedInstructions.toNum, ble_zero_true, Instruction.length,
      Machine.execute, Machine.exec_wait_for_key, wait_scan_none keys hn, hrew]
    omega
  · intro k hk hkp hmin
    simp [Machine.decode_and_execute, Bind.bind, Except.bind, hdec,
      Machine.assert_legal, AllowedInstructions.is_legal, Instruction.needed_comp,
      AllowedInstructions.toNum, ble_zero_true, Instruction.length,
      Machine.execute, Machine.exec_wait_for_key, wait_scan_least keys k hk hkp hmin,
      CPU.setReg, hadv]
    try omega

/-- Witness for C8: the theorem applied to the concrete WaitForKey
fixture, once with no key pressed and once with key 5 pressed. -/
theorem C8_wait_for_key_witness :
    (3 : Nat) < 16 ∧ waitKeyMach.cpu.skip = false
    ∧ waitKeyMach.memory waitKeyMach.cpu.ip = 240 + 3
    ∧ waitKeyMach.memory (waitKeyMach.cpu.ip + 1) = 0x0A
    ∧ waitKeyMach.cpu.ip + 2 < MEMORY_SIZE
    ∧ waitKeyMach.decode_and_execute defaultComp noKeys = .ok waitKeyMach
    ∧ waitKeyMach.decode_and_execute defaultComp key5Keys =
        .ok { waitKeyMach with cpu := { waitKeyMach.cpu with
          ip := waitKeyMach.cpu.ip + 2,
          registers := fun v => if v = 3 then 5 else waitKeyMach.cpu.registers v } } := by
  refine ⟨by decide, rfl, rfl, rfl, by decide, ?_, ?_⟩
  · exact (C8_wait_for_key waitKeyMach noKeys defaultComp 3 (by decide) rfl rfl rfl
      (by decide)).1 (fun k hk => rfl)
  · exact (C8_wait_for_key waitKeyMach key5Keys defaultComp 3 (by decide) rfl rfl rfl
      (by decide)).2 5 (by decide) rfl (fun j hj => by interval_cases j <;> rfl)

/-- C9: the plane-selection mask starts as [true, false] and no reachable
operation changes it, so every clear and draw touches only bit-plane 0
and bit-plane 1 stays all-zero in every state reachable from a fresh
machine. -/
theorem C9_plane_mask (m : Machine) (h : Reachable m) :
    m.screen.selected0 = true ∧ m.screen.selected1 = false
    ∧ ∀ y, m.screen.plane1.rows y = 0 := by
  have inv : ScreenMaskInv m.screen := by
    induction h with
    | new rng => exact ⟨rfl, rfl, fun _ => rfl⟩
    | cycle m comp keys m' hr he ih => exact dce_screen_inv m comp keys m' ih he
    | tick m hr ih => exact ih
    | set_ip m ip hr ih => exact ih
    | load m prog start hr ih => exact ih
    | fonts m hr ih => exact ih
  exact inv

/-- Witness for C9: the invariant holds of a fresh machine. -/
theorem C9_plane_mask_witness :
    (Machine.new (fun _ => 0)).screen.selected0 = true
    ∧ (Machine.new (fun _ => 0)).screen.selected1 = false
    ∧ ∀ y, (Machine.new (fun _ => 0)).screen.plane1.rows y = 0 :=
  C9_plane_mask _ (Reachable.new _)

end Chippy

